import Mathlib

/-!
# ESP32 MQTT DHT11 monitor: sampling, change filter, connection loop and timers

Shallow embedding of `src/src/main.cpp`.

* The global variables of the sketch are the fields of `State`.
* A `float` value is the rational number it denotes, or NaN (`none`) where the sensor may
  return it. The float subtraction of the change filter rounds its exact result to
  binary32 (`toFloat`, round to nearest, ties to even); assignments and comparisons are
  exact.
* `unsigned long` is a 32-bit word on the ESP32: values are naturals below
  `WORD = 2 ^ 32`, `++` and `-` wrap modulo `WORD`.
* Everything the sketch asks of the outside world (sensor, broker, WiFi, clock,
  inbound MQTT messages) is an explicit input; every call that acts on the outside
  world is recorded, in program order, as an `Event`.
* `connectToMQTT` contains an unbounded `while` loop; it is embedded with a fuel
  argument and returns `none` when the fuel is exhausted before the loop exits.

Serial output, the heat index (printed only) and the payload fields taken from
`millis()`, the heap and the RSSI are not part of the model.
-/

namespace Esp32Monitor

/-! ## Machine words and constants -/

/-- Number of values of an `unsigned long` on the ESP32 (32 bits). -/
def WORD : Nat := 4294967296

/-- The constant `SENSOR_INTERVAL` (main.cpp line 55), milliseconds. -/
def SENSOR_INTERVAL : Nat := 10000

/-- The constant `HEARTBEAT_INTERVAL` (main.cpp line 59), milliseconds. -/
def HEARTBEAT_INTERVAL : Nat := 60000

/-- Value returned by `millis()` when the true uptime is `t` milliseconds. -/
def millis (t : Nat) : Nat := t % WORD

/-- Subtraction `a - b` of two `unsigned long` values. -/
def usub (a b : Nat) : Nat := (a % WORD + (WORD - b % WORD)) % WORD

/-- The statement `x++` on an `unsigned long`. -/
def uinc (x : Nat) : Nat := (x + 1) % WORD

/-! ## Single-precision arithmetic -/

/-- Nearest integer, ties to the even one. -/
def roundHalfEven (y : ℚ) : ℤ :=
  if y - ⌊y⌋ < 1 / 2 then ⌊y⌋
  else if 1 / 2 < y - ⌊y⌋ then ⌊y⌋ + 1
  else if ⌊y⌋ % 2 = 0 then ⌊y⌋ else ⌊y⌋ + 1

/-- The IEEE 754 binary32 rounding of a rational (round to nearest, ties to even): 24
significant bits, and below `2 ^ (-126)` the fixed spacing `2 ^ (-149)` of the subnormal
numbers. A result of magnitude `2 ^ 128` or more, which the hardware turns into an
infinity, is kept as that finite value: it compares with the thresholds 0.5 and 2.0 as
the infinity does. -/
def toFloat (x : ℚ) : ℚ :=
  if x = 0 then 0
  else (roundHalfEven (x / 2 ^ (max (Int.log 2 |x|) (-126) - 23)) : ℚ)
    * 2 ^ (max (Int.log 2 |x|) (-126) - 23)

/-- The `float` subtraction `a - b` of the ESP32: the exact difference, rounded. -/
def fsub (a b : ℚ) : ℚ := toFloat (a - b)

/-! ## Observable actions -/

/-- What a published message carries, one constructor per topic. -/
inductive Payload where
  /-- Topic `esp32/status`, with the two counters of the payload. -/
  | status (totalReadings failedReadings : Nat)
  /-- Topic `esp32/dht11/temperature`. -/
  | temperature (value : ℚ)
  /-- Topic `esp32/dht11/humidity`. -/
  | humidity (value : ℚ)
  /-- Topic `esp32/heartbeat`. -/
  | heartbeat
  deriving DecidableEq

/-- Calls that act on the outside world. -/
inductive Event where
  /-- The call `digitalWrite(LED_BUILTIN, HIGH / LOW)`. -/
  | led (high : Bool)
  /-- The call `delay(ms)`. -/
  | delay (ms : Nat)
  /-- The calls `WiFi.mode(WIFI_STA); WiFi.begin(...)`. -/
  | wifiBegin
  /-- The call `mqttClient.connect(...)` and its result. -/
  | connectAttempt (ok : Bool)
  /-- The call `mqttClient.subscribe("esp32/command")`. -/
  | subscribe
  /-- The call `mqttClient.loop()`. -/
  | pump
  /-- The call `dht.readHumidity()`. -/
  | readHumidity
  /-- The call `dht.readTemperature()`. -/
  | readTemperature
  /-- The call `mqttClient.publish(topic, payload, retain)` and its result. -/
  | publish (payload : Payload) (retain : Bool) (accepted : Bool)
  /-- The call `ESP.restart()`. -/
  | restart
  deriving DecidableEq

/-- A publish call on one of the two sensor topics. -/
def Event.isSensorPublish : Event → Bool
  | .publish (.temperature _) _ _ => true
  | .publish (.humidity _) _ _ => true
  | _ => false

/-- A publish call on the heartbeat topic. -/
def Event.isHeartbeatPublish : Event → Bool
  | .publish .heartbeat _ _ => true
  | _ => false

/-- A call that reads the sensor. -/
def Event.isSensorRead : Event → Bool
  | .readHumidity => true
  | .readTemperature => true
  | _ => false

/-- A sensor read, a sensor publish call or a heartbeat publish call. -/
def Event.isTelemetry (e : Event) : Bool :=
  e.isSensorRead || e.isSensorPublish || e.isHeartbeatPublish

/-- A successful `mqttClient.publish` call on a sensor topic. -/
def Event.isAcceptedSensorPublish : Event → Bool
  | .publish (.temperature _) _ true => true
  | .publish (.humidity _) _ true => true
  | _ => false

/-! ## Program state -/

/-- The global variables of main.cpp, lines 53 to 67. -/
structure State where
  lastSensorReading : Nat
  lastHeartbeat : Nat
  lastTemperature : ℚ
  lastHumidity : ℚ
  totalReadings : Nat
  failedReadings : Nat
  deriving DecidableEq

/-- The initialisers of the global variables. -/
def initialState : State :=
  { lastSensorReading := 0, lastHeartbeat := 0, lastTemperature := 0, lastHumidity := 0,
    totalReadings := 0, failedReadings := 0 }

/-! ## Utilities -/

/-- Function `blinkLED(times, delayMs)`, main.cpp lines 76 to 83. -/
def blinkLED : Nat → Nat → List Event
  | 0, _ => []
  | times + 1, delayMs =>
    [Event.led true, Event.delay delayMs, Event.led false, Event.delay delayMs]
      ++ blinkLED times delayMs

/-! ## Publication -/

/-- Function `publishStatus()`, main.cpp lines 223 to 237; `accepted` is the result of
`mqttClient.publish`, which the function ignores. -/
def publishStatus (accepted : Bool) (s : State) : List Event :=
  [Event.publish (Payload.status s.totalReadings s.failedReadings) true accepted]

/-- Function `publishSensorData(temperature, humidity)`, main.cpp lines 244 to 279. The two
results of `mqttClient.publish` only select what is printed; the function returns `void`. -/
def publishSensorData (temperature humidity : ℚ) (tempAccepted humAccepted : Bool) :
    List Event :=
  [Event.publish (Payload.temperature temperature) false tempAccepted,
   Event.publish (Payload.humidity humidity) false humAccepted]

/-- Function `publishHeartbeat()`, main.cpp lines 284 to 295. -/
def publishHeartbeat (accepted : Bool) : List Event :=
  [Event.publish Payload.heartbeat false accepted]

/-! ## Sampling -/

/-- What one call of `readAndPublishSensorData` receives from outside: the two floats
returned by the sensor (`none` is NaN) and the results the transport would give to the
two publish calls. -/
structure Sample where
  humidity : Option ℚ
  temperature : Option ℚ
  tempAccepted : Bool
  humAccepted : Bool

/-- The sensor reports a fault: `isnan(humidity) || isnan(temperature)`. -/
def Sample.isFault (r : Sample) : Bool :=
  r.humidity.isNone || r.temperature.isNone

/-- Function `readAndPublishSensorData()`, main.cpp lines 302 to 357. -/
def readAndPublishSensorData (r : Sample) (s : State) : State × List Event :=
  let s1 : State := { s with totalReadings := uinc s.totalReadings }
  match r.humidity, r.temperature with
  | some humidity, some temperature =>
    if |fsub temperature s1.lastTemperature| > 1 / 2 ∨
        |fsub humidity s1.lastHumidity| > 2 ∨
        s1.totalReadings = 1 then
      ({ s1 with lastTemperature := temperature, lastHumidity := humidity },
        [Event.readHumidity, Event.readTemperature]
          ++ publishSensorData temperature humidity r.tempAccepted r.humAccepted
          ++ blinkLED 1 50)
    else
      (s1, [Event.readHumidity, Event.readTemperature])
  | _, _ =>
    ({ s1 with failedReadings := uinc s1.failedReadings },
      [Event.readHumidity, Event.readTemperature] ++ blinkLED 2 50)

/-- Consecutive calls of `readAndPublishSensorData`, one per element of the list. -/
def sampleAll : List Sample → State → State × List Event
  | [], s => (s, [])
  | r :: rs, s =>
    let step := readAndPublishSensorData r s
    let rest := sampleAll rs step.1
    (rest.1, step.2 ++ rest.2)

/-- The state reached from boot by the sampling cycles `rs`, with the two timer variables,
which sampling neither reads nor writes, set to `a` and `b`. -/
def reached (rs : List Sample) (a b : Nat) : State :=
  { (sampleAll rs initialState).1 with lastSensorReading := a, lastHeartbeat := b }

/-- The value carried by the last temperature publish call among the events. -/
def lastPublishedTemperature : List Event → Option ℚ
  | [] => none
  | e :: es =>
    match lastPublishedTemperature es with
    | some v => some v
    | none =>
      match e with
      | Event.publish (Payload.temperature v) _ _ => some v
      | _ => none

/-- The value carried by the last humidity publish call among the events. -/
def lastPublishedHumidity : List Event → Option ℚ
  | [] => none
  | e :: es =>
    match lastPublishedHumidity es with
    | some v => some v
    | none =>
      match e with
      | Event.publish (Payload.humidity v) _ _ => some v
      | _ => none

/-! ## Connection maintenance -/

/-- What the broker answers to one `mqttClient.connect` call of `connectToMQTT`. -/
structure Attempt where
  /-- Result of `mqttClient.connect(...)`. -/
  ok : Bool
  /-- Result of the publish call inside `publishStatus()` after a successful connect. -/
  statusAccepted : Bool
  /-- Value of `mqttClient.connected()` at the next test of the `while` condition, after a
  successful connect. After a failed connect the client is disconnected. -/
  stays : Bool

/-- The events of one failed iteration of the `while` loop of `connectToMQTT`
(main.cpp lines 207 to 214). -/
def connectFailure : List Event :=
  [Event.connectAttempt false] ++ blinkLED 5 100 ++ [Event.delay 5000]

/-- The events of `n` consecutive failed iterations of the `while` loop. -/
def connectFailures : Nat → List Event
  | 0 => []
  | n + 1 => connectFailure ++ connectFailures n

/-- The events of one successful iteration of the `while` loop of `connectToMQTT`
(main.cpp lines 195 to 206). -/
def connectSuccess (a : Attempt) (s : State) : List Event :=
  [Event.connectAttempt true] ++ publishStatus a.statusAccepted s ++ [Event.subscribe]
    ++ blinkLED 3 200

/-- Function `connectToMQTT()`, main.cpp lines 183 to 216. `broker i` is the answer to the
`i`-th connect attempt, `attempt` the number of attempts made so far and `connected` the
value of `mqttClient.connected()` at the coming test of the `while` condition. Each
iteration of the loop uses one unit of fuel; `none` means the loop is still running when
the fuel is used up. -/
def connectToMQTT (broker : Nat → Attempt) (s : State) :
    (fuel : Nat) → (attempt : Nat) → (connected : Bool) → Option (State × List Event)
  | _, _, true => some (s, [])
  | 0, _, false => none
  | fuel + 1, attempt, false =>
    if (broker attempt).ok then
      (connectToMQTT broker s fuel (attempt + 1) (broker attempt).stays).map
        fun r => (r.1, connectSuccess (broker attempt) s ++ r.2)
    else
      (connectToMQTT broker s fuel (attempt + 1) false).map
        fun r => (r.1, connectFailure ++ r.2)

/-- The `while` loop of `setupWiFi` (main.cpp lines 120 to 125) with `remaining` iterations
left before `attempts` reaches `maxAttempts`; `wifi q` is the answer to the `q`-th test
`WiFi.status() == WL_CONNECTED`. Returns the events and the number of tests made. -/
def setupWiFi_wait (wifi : Nat → Bool) : (remaining : Nat) → (q : Nat) → List Event × Nat
  | 0, q => ([], q + 1)
  | remaining + 1, q =>
    if wifi q then ([], q + 1)
    else
      let rest := setupWiFi_wait wifi remaining (q + 1)
      ([Event.delay 500] ++ blinkLED 1 100 ++ rest.1, rest.2)

/-- Function `setupWiFi()`, main.cpp lines 108 to 147. Returns the events and the last
link status the function has seen (the test of line 127). -/
def setupWiFi (wifi : Nat → Bool) : List Event × Bool :=
  let w := setupWiFi_wait wifi 20 0
  if wifi w.2 then
    ([Event.delay 10, Event.wifiBegin] ++ w.1
      ++ [Event.led true, Event.delay 2000, Event.led false], true)
  else
    ([Event.delay 10, Event.wifiBegin] ++ w.1 ++ blinkLED 10 100, false)

/-- A message handed to `mqttCallback` during `mqttClient.loop()`. -/
inductive Inbound where
  /-- Topic `esp32/command`, message `restart`. -/
  | restart
  /-- Topic `esp32/command`, message `status`; `accepted` is the result of the publish call
  of `publishStatus()`. -/
  | status (accepted : Bool)
  /-- Any other topic or message. -/
  | other

/-- Function `mqttCallback`, main.cpp lines 157 to 178. The boolean tells that
`ESP.restart()` was called. -/
def mqttCallback (m : Inbound) (s : State) : List Event × Bool :=
  match m with
  | Inbound.restart => ([Event.delay 3000, Event.restart], true)
  | Inbound.status accepted => (publishStatus accepted s, false)
  | Inbound.other => ([], false)

/-- The call `mqttClient.loop()`: the callback runs on each inbound message, in order,
until one of them restarts the device. -/
def pumpInbound : List Inbound → State → List Event × Bool
  | [], _ => ([], false)
  | m :: ms, s =>
    let r := mqttCallback m s
    if r.2 then (r.1, true)
    else
      let rest := pumpInbound ms s
      (r.1 ++ rest.1, rest.2)

/-! ## Main loop -/

/-- What one iteration of `loop()` receives from outside. -/
structure LoopEnv where
  /-- Value of `mqttClient.connected()` at line 402. -/
  sessionUp : Bool
  /-- Answers of the broker to the connect attempts of `connectToMQTT`. -/
  broker : Nat → Attempt
  /-- Messages delivered during `mqttClient.loop()`, line 405. -/
  inbound : List Inbound
  /-- Value of `WiFi.status() == WL_CONNECTED` at line 408. -/
  wifiUp : Bool
  /-- Answers to the tests `WiFi.status() == WL_CONNECTED` inside `setupWiFi`. -/
  wifi : Nat → Bool
  /-- Whether the MQTT session is up when the timers are tested (line 413). The code does
  not ask. -/
  sessionAtTimers : Bool
  /-- True uptime in milliseconds when `millis()` is called at line 413. -/
  uptime : Nat
  /-- What the sensor and the transport answer if the sample timer fires. -/
  sample : Sample
  /-- Result of the publish call of `publishHeartbeat()` if the heartbeat timer fires. -/
  heartbeatAccepted : Bool

/-- The WiFi link as last seen by the connection-maintenance step of `loop()`
(lines 408 to 411). -/
def LoopEnv.linkAfterMaintenance (env : LoopEnv) : Bool :=
  if env.wifiUp then true else (setupWiFi env.wifi).2

/-- The device is Connected after the connection-maintenance step: link and session are
both up. -/
def LoopEnv.connected (env : LoopEnv) : Bool :=
  env.linkAfterMaintenance && env.sessionAtTimers

/-- An iteration one minute after boot in which `mqttClient.connected()` still answers
true at line 402 but the WiFi link is down and stays down through `setupWiFi`; the sensor
answers 20.0/50.0 and every publish call is rejected. -/
def linkDownEnv : LoopEnv :=
  { sessionUp := true
    broker := fun _ => ⟨false, false, false⟩
    inbound := []
    wifiUp := false
    wifi := fun _ => false
    sessionAtTimers := false
    uptime := 60000
    sample := ⟨some 50, some 20, false, false⟩
    heartbeatAccepted := false }

/-- An iteration 35 s after boot with link and session up, no inbound message, the sensor
answering 20.0/50.0 and every publish call accepted. -/
def overdueEnv : LoopEnv :=
  { sessionUp := true
    broker := fun _ => ⟨true, true, true⟩
    inbound := []
    wifiUp := true
    wifi := fun _ => true
    sessionAtTimers := true
    uptime := 35000
    sample := ⟨some 50, some 20, true, true⟩
    heartbeatAccepted := true }

/-- Lines 413 to 428 of `loop()`: the two timers and the final `delay(100)`. -/
def loop_timers (env : LoopEnv) (s : State) : State × List Event :=
  let currentMillis := millis env.uptime
  let a : State × List Event :=
    if usub currentMillis s.lastSensorReading ≥ SENSOR_INTERVAL then
      readAndPublishSensorData env.sample { s with lastSensorReading := currentMillis }
    else (s, [])
  let b : State × List Event :=
    if usub currentMillis a.1.lastHeartbeat ≥ HEARTBEAT_INTERVAL then
      ({ a.1 with lastHeartbeat := currentMillis }, publishHeartbeat env.heartbeatAccepted)
    else (a.1, [])
  (b.1, a.2 ++ b.2 ++ [Event.delay 100])

/-- How an iteration of `loop()` ends. -/
inductive Outcome where
  /-- The iteration ran to its end, leaving the state `s`. -/
  | completed (s : State) (events : List Event)
  /-- A `restart` command rebooted the device during `mqttClient.loop()`. -/
  | restarted (events : List Event)

/-- The events of an iteration, however it ended. -/
def Outcome.events : Outcome → List Event
  | Outcome.completed _ events => events
  | Outcome.restarted events => events

/-- Function `loop()`, main.cpp lines 400 to 429. `none` means that `connectToMQTT` has
not returned within `fuel` iterations of its loop. -/
def loop (fuel : Nat) (env : LoopEnv) (s : State) : Option Outcome :=
  match (if env.sessionUp then some (s, []) else connectToMQTT env.broker s fuel 0 false) with
  | none => none
  | some (s1, evs1) =>
    let p := pumpInbound env.inbound s1
    if p.2 then some (Outcome.restarted (evs1 ++ [Event.pump] ++ p.1))
    else
      let w : List Event := if env.wifiUp then [] else (setupWiFi env.wifi).1
      let t := loop_timers env s1
      some (Outcome.completed t.1 (evs1 ++ [Event.pump] ++ p.1 ++ w ++ t.2))

/-- Consecutive iterations of `loop()`, one per element of the list, until a restart. -/
def loopAll (fuel : Nat) : List LoopEnv → State → Option Outcome
  | [], s => some (Outcome.completed s [])
  | env :: envs, s =>
    match loop fuel env s with
    | none => none
    | some (Outcome.restarted evs) => some (Outcome.restarted evs)
    | some (Outcome.completed s1 evs) =>
      match loopAll fuel envs s1 with
      | none => none
      | some (Outcome.restarted evs2) => some (Outcome.restarted (evs ++ evs2))
      | some (Outcome.completed s2 evs2) => some (Outcome.completed s2 (evs ++ evs2))

/-! ## Sampling cycle: basic facts -/

theorem uinc_lt (x : Nat) : uinc x < WORD := by
  unfold uinc WORD
  omega

theorem uinc_eq_one_iff (x : Nat) : uinc x = 1 ↔ x % WORD = 0 := by
  unfold uinc WORD
  omega

theorem blinkLED_any_sensorPublish (n d : Nat) :
    (blinkLED n d).any Event.isSensorPublish = false := by
  induction n with
  | zero => rfl
  | succ n ih => simpa [blinkLED, Event.isSensorPublish] using ih

theorem readAndPublish_valid (s : State) (h t : ℚ) (ta ha : Bool) :
    readAndPublishSensorData ⟨some h, some t, ta, ha⟩ s =
      if |fsub t s.lastTemperature| > 1 / 2 ∨ |fsub h s.lastHumidity| > 2 ∨
          uinc s.totalReadings = 1 then
        ({ s with totalReadings := uinc s.totalReadings, lastTemperature := t,
                  lastHumidity := h },
          [Event.readHumidity, Event.readTemperature] ++ publishSensorData t h ta ha
            ++ blinkLED 1 50)
      else
        ({ s with totalReadings := uinc s.totalReadings },
          [Event.readHumidity, Event.readTemperature]) := by
  rfl

theorem readAndPublish_fault (r : Sample) (s : State) (hf : r.isFault = true) :
    readAndPublishSensorData r s =
      ({ s with totalReadings := uinc s.totalReadings,
                failedReadings := uinc s.failedReadings },
        [Event.readHumidity, Event.readTemperature] ++ blinkLED 2 50) := by
  obtain ⟨h, t, ta, ha⟩ := r
  cases h <;> cases t <;> simp_all [Sample.isFault, readAndPublishSensorData]

theorem readAndPublish_total (r : Sample) (s : State) :
    (readAndPublishSensorData r s).1.totalReadings = uinc s.totalReadings := by
  obtain ⟨h, t, ta, ha⟩ := r
  cases h <;> cases t <;> simp [readAndPublishSensorData]
  split_ifs <;> rfl

theorem readAndPublish_failed (r : Sample) (s : State) :
    (readAndPublishSensorData r s).1.failedReadings =
      if r.isFault then uinc s.failedReadings else s.failedReadings := by
  obtain ⟨h, t, ta, ha⟩ := r
  cases h <;> cases t <;> simp [readAndPublishSensorData, Sample.isFault]
  split_ifs <;> rfl

theorem sampleAll_cons (r : Sample) (rs : List Sample) (s : State) :
    sampleAll (r :: rs) s =
      ((sampleAll rs (readAndPublishSensorData r s).1).1,
        (readAndPublishSensorData r s).2 ++ (sampleAll rs (readAndPublishSensorData r s).1).2) := by
  rfl

theorem sampleAll_total_mod (rs : List Sample) (s : State) :
    (sampleAll rs s).1.totalReadings % WORD = (s.totalReadings + rs.length) % WORD := by
  induction rs generalizing s with
  | nil => rfl
  | cons r rs ih =>
    rw [sampleAll_cons]
    simp only [ih, readAndPublish_total, List.length_cons]
    unfold uinc WORD
    omega

theorem sampleAll_total_lt (rs : List Sample) (s : State) (hs : s.totalReadings < WORD) :
    (sampleAll rs s).1.totalReadings < WORD := by
  induction rs generalizing s with
  | nil => exact hs
  | cons r rs ih =>
    rw [sampleAll_cons]
    apply ih
    rw [readAndPublish_total]
    exact uinc_lt _

theorem sampleAll_failed_mod (rs : List Sample) (s : State) :
    (sampleAll rs s).1.failedReadings % WORD =
      (s.failedReadings + (rs.filter Sample.isFault).length) % WORD := by
  induction rs generalizing s with
  | nil => rfl
  | cons r rs ih =>
    rw [sampleAll_cons]
    simp only [ih, readAndPublish_failed, List.filter_cons]
    cases hr : r.isFault
    · simp
    · simp only [if_true, List.length_cons]
      unfold uinc WORD
      omega

theorem sampleAll_failed_lt (rs : List Sample) (s : State) (hs : s.failedReadings < WORD) :
    (sampleAll rs s).1.failedReadings < WORD := by
  induction rs generalizing s with
  | nil => exact hs
  | cons r rs ih =>
    rw [sampleAll_cons]
    apply ih
    rw [readAndPublish_failed]
    split_ifs
    · exact uinc_lt _
    · exact hs

/-- A run of valid readings leaves `failedReadings` alone. -/
theorem sampleAll_failed_of_valid (rs : List Sample) (s : State)
    (hv : ∀ r ∈ rs, r.isFault = false) :
    (sampleAll rs s).1.failedReadings = s.failedReadings := by
  induction rs generalizing s with
  | nil => rfl
  | cons r rs ih =>
    rw [sampleAll_cons]
    simp only [List.mem_cons, forall_eq_or_imp] at hv
    rw [ih _ hv.2, readAndPublish_failed, hv.1]
    rfl

/-- Repeating the reading that `lastTemperature` / `lastHumidity` already hold keeps them. -/
theorem sampleAll_replicate_same (n : Nat) (s : State) (ta ha : Bool) :
    (sampleAll (List.replicate n ⟨some s.lastHumidity, some s.lastTemperature, ta, ha⟩)
        s).1.lastTemperature = s.lastTemperature ∧
    (sampleAll (List.replicate n ⟨some s.lastHumidity, some s.lastTemperature, ta, ha⟩)
        s).1.lastHumidity = s.lastHumidity := by
  induction n generalizing s with
  | zero => exact ⟨rfl, rfl⟩
  | succ n ih =>
    rw [List.replicate_succ, sampleAll_cons]
    have key : (readAndPublishSensorData
        ⟨some s.lastHumidity, some s.lastTemperature, ta, ha⟩ s).1.lastTemperature
          = s.lastTemperature ∧
        (readAndPublishSensorData
        ⟨some s.lastHumidity, some s.lastTemperature, ta, ha⟩ s).1.lastHumidity
          = s.lastHumidity := by
      rw [readAndPublish_valid]
      split_ifs <;> exact ⟨rfl, rfl⟩
    have h := ih (readAndPublishSensorData
        ⟨some s.lastHumidity, some s.lastTemperature, ta, ha⟩ s).1
    rw [key.1, key.2] at h
    exact h

/-! ## Claims about the sampling cycle -/

/-! ## Single-precision rounding: facts -/

theorem roundHalfEven_of_near (y : ℚ) (n : ℤ) (h : |y - n| < 1 / 2) :
    roundHalfEven y = n := by
  rw [abs_lt] at h
  unfold roundHalfEven
  by_cases hy : (n : ℚ) ≤ y
  · have hf : ⌊y⌋ = n := by
      rw [Int.floor_eq_iff]
      constructor
      · exact hy
      · linarith
    rw [hf, if_pos (by linarith)]
  · push_neg at hy
    have hf : ⌊y⌋ = n - 1 := by
      rw [Int.floor_eq_iff]
      push_cast
      constructor <;> linarith
    rw [hf]
    push_cast
    rw [if_neg (by linarith), if_pos (by linarith)]
    ring

theorem roundHalfEven_le (y : ℚ) (m : ℤ) (h : y ≤ m) : roundHalfEven y ≤ m := by
  have hfl : ⌊y⌋ ≤ m := Int.floor_le_floor (a := y) (b := m) h |>.trans (by simp)
  unfold roundHalfEven
  rcases lt_or_eq_of_le hfl with hlt | heq
  · split_ifs <;> omega
  · have hy : y = m := by
      apply le_antisymm h
      rw [← heq]
      exact Int.floor_le y
    have hz : y - ⌊y⌋ < 1 / 2 := by
      rw [heq, hy]
      norm_num
    rw [if_pos hz]
    exact hfl

theorem le_roundHalfEven (y : ℚ) (m : ℤ) (h : (m : ℚ) ≤ y) : m ≤ roundHalfEven y := by
  have hfl : m ≤ ⌊y⌋ := Int.le_floor.mpr h
  unfold roundHalfEven
  split_ifs <;> omega

/-- A value whose exponent is `e` and whose quotient by the spacing `2 ^ (e - 23)` is
within one half of the integer `n` rounds to `n * 2 ^ (e - 23)`. -/
theorem toFloat_of_near (x : ℚ) (e n : ℤ) (he : -126 ≤ e)
    (hlo : (2 : ℚ) ^ e ≤ |x|) (hhi : |x| < (2 : ℚ) ^ (e + 1))
    (hn : |x / 2 ^ (e - 23) - n| < 1 / 2) : toFloat x = n * 2 ^ (e - 23) := by
  have hpos : 0 < |x| := lt_of_lt_of_le (by positivity) hlo
  have hx : x ≠ 0 := abs_pos.mp hpos
  have hlog : Int.log 2 |x| = e := by
    apply le_antisymm
    · have := (Int.lt_zpow_iff_log_lt (b := 2) (by norm_num) hpos).mp (by exact_mod_cast hhi)
      omega
    · exact (Int.zpow_le_iff_le_log (b := 2) (by norm_num) hpos).mp (by exact_mod_cast hlo)
  unfold toFloat
  rw [if_neg hx, hlog, max_eq_left he, roundHalfEven_of_near _ n hn]

theorem toFloat_zero : toFloat 0 = 0 := by
  simp [toFloat]

theorem fsub_self (a : ℚ) : fsub a a = 0 := by
  simp [fsub, toFloat_zero]

/-- Rounding does not cross a power of two: a difference of magnitude at most `2 ^ k`
rounds to a float of magnitude at most `2 ^ k`. -/
theorem abs_toFloat_le_zpow (x : ℚ) (k : ℤ) (hk : -126 ≤ k) (h : |x| ≤ (2 : ℚ) ^ k) :
    |toFloat x| ≤ (2 : ℚ) ^ k := by
  by_cases hx : x = 0
  · rw [hx, toFloat_zero, abs_zero]
    positivity
  have hpos : 0 < |x| := abs_pos.mpr hx
  have hlog : Int.log 2 |x| ≤ k := by
    have hlt : |x| < (2 : ℚ) ^ (k + 1) := by
      refine lt_of_le_of_lt h ?_
      exact zpow_lt_zpow_right₀ (by norm_num) (by omega)
    have := (Int.lt_zpow_iff_log_lt (b := 2) (by norm_num) hpos).mp (by exact_mod_cast hlt)
    omega
  have he : max (Int.log 2 |x|) (-126) ≤ k := max_le hlog hk
  obtain ⟨d, hd⟩ : ∃ d : ℕ, k = max (Int.log 2 |x|) (-126) - 23 + d :=
    ⟨(k - (max (Int.log 2 |x|) (-126) - 23)).toNat, by omega⟩
  have hu : (0 : ℚ) < 2 ^ (max (Int.log 2 |x|) (-126) - 23) := by positivity
  have hk2 : (2 : ℚ) ^ k = ((2 ^ d : ℤ) : ℚ) * 2 ^ (max (Int.log 2 |x|) (-126) - 23) := by
    rw [hd, zpow_add₀ (by norm_num), zpow_natCast]
    push_cast
    ring
  have hy : |x / 2 ^ (max (Int.log 2 |x|) (-126) - 23)| ≤ ((2 ^ d : ℤ) : ℚ) := by
    rw [abs_div, abs_of_pos hu, div_le_iff₀ hu, ← hk2]
    exact h
  rw [abs_le] at hy
  have h1 := roundHalfEven_le _ _ hy.2
  have h2 := le_roundHalfEven (x / 2 ^ (max (Int.log 2 |x|) (-126) - 23)) (-(2 ^ d : ℤ))
    (by push_cast; push_cast at hy; exact hy.1)
  unfold toFloat
  rw [if_neg hx, abs_mul, abs_of_pos hu, hk2]
  apply mul_le_mul_of_nonneg_right _ hu.le
  rw [abs_le]
  constructor
  · exact_mod_cast h2
  · exact_mod_cast h1

/-! ## Concrete single-precision values -/

/-- The float written `0.1`. -/
theorem toFloat_tenth : toFloat 0.1 = 13421773 / 134217728 := by
  rw [toFloat_of_near 0.1 (-4) 13421773 (by norm_num) (by norm_num [abs_of_pos])
    (by norm_num [abs_of_pos]) (by norm_num [abs_lt])]
  norm_num

/-- The float written `0.6`. -/
theorem toFloat_six_tenths : toFloat 0.6 = 5033165 / 8388608 := by
  rw [toFloat_of_near 0.6 (-1) 10066330 (by norm_num) (by norm_num [abs_of_pos])
    (by norm_num [abs_of_pos]) (by norm_num [abs_lt])]
  norm_num

/-- The float written `20.3`. -/
theorem toFloat_twenty_three : toFloat 20.3 = 5321523 / 262144 := by
  rw [toFloat_of_near 20.3 4 10643046 (by norm_num) (by norm_num [abs_of_pos])
    (by norm_num [abs_of_pos]) (by norm_num [abs_lt])]
  norm_num

/-- The float written `20.6`. -/
theorem toFloat_twenty_six : toFloat 20.6 = 10800333 / 524288 := by
  rw [toFloat_of_near 20.6 4 10800333 (by norm_num) (by norm_num [abs_of_pos])
    (by norm_num [abs_of_pos]) (by norm_num [abs_lt])]
  norm_num

/-- The float difference `0.6f - 0.1f` is exactly 0.5, although the exact difference of the
two floats is `0.5 + 3 / 2 ^ 27`. -/
theorem fsub_six_tenths_tenth :
    fsub (5033165 / 8388608) (13421773 / 134217728) = 1 / 2 := by
  unfold fsub
  rw [show (5033165 / 8388608 : ℚ) - 13421773 / 134217728 = 67108867 / 134217728 by norm_num,
    toFloat_of_near (67108867 / 134217728) (-1) 8388608 (by norm_num)
      (by norm_num [abs_of_pos]) (by norm_num [abs_of_pos]) (by norm_num [abs_lt])]
  norm_num

/-- The float difference `20.3f - 20.0f` is exact. -/
theorem fsub_twenty_three_twenty : fsub (5321523 / 262144) 20 = 78643 / 262144 := by
  unfold fsub
  rw [show (5321523 / 262144 : ℚ) - 20 = 78643 / 262144 by norm_num,
    toFloat_of_near (78643 / 262144) (-2) 10066304 (by norm_num)
      (by norm_num [abs_of_pos]) (by norm_num [abs_of_pos]) (by norm_num [abs_lt])]
  norm_num

/-- The float difference `20.6f - 20.0f` is exact. -/
theorem fsub_twenty_six_twenty : fsub (10800333 / 524288) 20 = 314573 / 524288 := by
  unfold fsub
  rw [show (10800333 / 524288 : ℚ) - 20 = 314573 / 524288 by norm_num,
    toFloat_of_near (314573 / 524288) (-1) 10066336 (by norm_num)
      (by norm_num [abs_of_pos]) (by norm_num [abs_of_pos]) (by norm_num [abs_lt])]
  norm_num

theorem fsub_twenty_five_twenty : fsub 25 20 = 5 := by
  unfold fsub
  rw [show (25 : ℚ) - 20 = 5 by norm_num,
    toFloat_of_near 5 2 10485760 (by norm_num)
      (by norm_num [abs_of_pos]) (by norm_num [abs_of_pos]) (by norm_num [abs_lt])]
  norm_num

/-! ## Sampling cycle: the three outcomes of a valid reading -/

/-- The first cycle after boot, or after the counter has wrapped to 0, publishes. -/
theorem readAndPublish_first (s : State) (h t : ℚ) (ta ha : Bool)
    (h0 : uinc s.totalReadings = 1) :
    readAndPublishSensorData ⟨some h, some t, ta, ha⟩ s =
      ({ s with totalReadings := uinc s.totalReadings, lastTemperature := t,
                lastHumidity := h },
        [Event.readHumidity, Event.readTemperature] ++ publishSensorData t h ta ha
          ++ blinkLED 1 50) := by
  rw [readAndPublish_valid, if_pos (Or.inr (Or.inr h0))]

/-- A rounded difference above a threshold publishes. -/
theorem readAndPublish_changed (s : State) (h t : ℚ) (ta ha : Bool)
    (hc : |fsub t s.lastTemperature| > 1 / 2 ∨ |fsub h s.lastHumidity| > 2) :
    readAndPublishSensorData ⟨some h, some t, ta, ha⟩ s =
      ({ s with totalReadings := uinc s.totalReadings, lastTemperature := t,
                lastHumidity := h },
        [Event.readHumidity, Event.readTemperature] ++ publishSensorData t h ta ha
          ++ blinkLED 1 50) := by
  have hc3 : |fsub t s.lastTemperature| > 1 / 2 ∨ |fsub h s.lastHumidity| > 2 ∨
      uinc s.totalReadings = 1 := by tauto
  rw [readAndPublish_valid, if_pos hc3]

/-- Rounded differences within both thresholds, outside the first cycle, publish nothing. -/
theorem readAndPublish_skipped (s : State) (h t : ℚ) (ta ha : Bool)
    (ht : ¬ |fsub t s.lastTemperature| > 1 / 2) (hh : ¬ |fsub h s.lastHumidity| > 2)
    (h1 : uinc s.totalReadings ≠ 1) :
    readAndPublishSensorData ⟨some h, some t, ta, ha⟩ s =
      ({ s with totalReadings := uinc s.totalReadings },
        [Event.readHumidity, Event.readTemperature]) := by
  have hc3 : ¬ (|fsub t s.lastTemperature| > 1 / 2 ∨ |fsub h s.lastHumidity| > 2 ∨
      uinc s.totalReadings = 1) := by tauto
  rw [readAndPublish_valid, if_neg hc3]

theorem abs_fsub_le_half (a b : ℚ) (h : |a - b| ≤ 1 / 2) : ¬ |fsub a b| > 1 / 2 := by
  have := abs_toFloat_le_zpow (a - b) (-1) (by norm_num) (by norm_num; linarith)
  unfold fsub
  norm_num at this
  linarith

theorem abs_fsub_le_two (a b : ℚ) (h : |a - b| ≤ 2) : ¬ |fsub a b| > 2 := by
  have := abs_toFloat_le_zpow (a - b) 1 (by norm_num) (by norm_num; linarith)
  unfold fsub
  norm_num at this
  linarith

/-- Exact differences within both thresholds, outside the first cycle, publish nothing. -/
theorem readAndPublish_stable (s : State) (h t : ℚ) (ta ha : Bool)
    (ht : |t - s.lastTemperature| ≤ 1 / 2) (hh : |h - s.lastHumidity| ≤ 2)
    (h1 : uinc s.totalReadings ≠ 1) :
    readAndPublishSensorData ⟨some h, some t, ta, ha⟩ s =
      ({ s with totalReadings := uinc s.totalReadings },
        [Event.readHumidity, Event.readTemperature]) :=
  readAndPublish_skipped s h t ta ha (abs_fsub_le_half _ _ ht) (abs_fsub_le_two _ _ hh) h1

/-! ## What the two variables hold: the last published reading -/

theorem lastPublishedTemperature_cons (e : Event) (es : List Event) :
    lastPublishedTemperature (e :: es) =
      match lastPublishedTemperature es with
      | some v => some v
      | none =>
        match e with
        | Event.publish (Payload.temperature v) _ _ => some v
        | _ => none := by
  rfl

theorem lastPublishedHumidity_cons (e : Event) (es : List Event) :
    lastPublishedHumidity (e :: es) =
      match lastPublishedHumidity es with
      | some v => some v
      | none =>
        match e with
        | Event.publish (Payload.humidity v) _ _ => some v
        | _ => none := by
  rfl

theorem lastPublished_none_of_no_publish (evs : List Event)
    (h : evs.any Event.isSensorPublish = false) :
    lastPublishedTemperature evs = none ∧ lastPublishedHumidity evs = none := by
  induction evs with
  | nil => exact ⟨rfl, rfl⟩
  | cons e es ih =>
    rw [List.any_cons, Bool.or_eq_false_iff] at h
    obtain ⟨h1, h2⟩ := ih h.2
    have he := h.1
    constructor
    · simp only [lastPublishedTemperature, h1]
      cases e with
      | publish p r acc => cases p <;> simp_all [Event.isSensorPublish]
      | _ => rfl
    · simp only [lastPublishedHumidity, h2]
      cases e with
      | publish p r acc => cases p <;> simp_all [Event.isSensorPublish]
      | _ => rfl

theorem lastPublishedTemperature_append_some (xs ys : List Event) (v : ℚ)
    (h : lastPublishedTemperature ys = some v) :
    lastPublishedTemperature (xs ++ ys) = some v := by
  induction xs with
  | nil => exact h
  | cons x xs ih => rw [List.cons_append, lastPublishedTemperature_cons, ih]

theorem lastPublishedHumidity_append_some (xs ys : List Event) (v : ℚ)
    (h : lastPublishedHumidity ys = some v) :
    lastPublishedHumidity (xs ++ ys) = some v := by
  induction xs with
  | nil => exact h
  | cons x xs ih => rw [List.cons_append, lastPublishedHumidity_cons, ih]

theorem lastPublishedTemperature_append_none (xs ys : List Event)
    (h : lastPublishedTemperature ys = none) :
    lastPublishedTemperature (xs ++ ys) = lastPublishedTemperature xs := by
  induction xs with
  | nil => exact h
  | cons x xs ih =>
    rw [List.cons_append, lastPublishedTemperature_cons, ih, lastPublishedTemperature_cons]

theorem lastPublishedHumidity_append_none (xs ys : List Event)
    (h : lastPublishedHumidity ys = none) :
    lastPublishedHumidity (xs ++ ys) = lastPublishedHumidity xs := by
  induction xs with
  | nil => exact h
  | cons x xs ih =>
    rw [List.cons_append, lastPublishedHumidity_cons, ih, lastPublishedHumidity_cons]

/-- One cycle either makes no sensor publish call and keeps the two variables, or its
publish calls carry what it leaves in them. -/
theorem readAndPublish_lastPublished (r : Sample) (s : State) :
    ((readAndPublishSensorData r s).2.any Event.isSensorPublish = false ∧
      (readAndPublishSensorData r s).1.lastTemperature = s.lastTemperature ∧
      (readAndPublishSensorData r s).1.lastHumidity = s.lastHumidity) ∨
    (lastPublishedTemperature (readAndPublishSensorData r s).2 =
        some (readAndPublishSensorData r s).1.lastTemperature ∧
      lastPublishedHumidity (readAndPublishSensorData r s).2 =
        some (readAndPublishSensorData r s).1.lastHumidity) := by
  cases hf : r.isFault with
  | true =>
    left
    rw [readAndPublish_fault r s hf]
    exact ⟨by simp [blinkLED, Event.isSensorPublish], rfl, rfl⟩
  | false =>
    obtain ⟨h, t, ta, ha⟩ := r
    cases h with
    | none => simp [Sample.isFault] at hf
    | some h =>
      cases t with
      | none => simp [Sample.isFault] at hf
      | some t =>
        rw [readAndPublish_valid]
        split_ifs
        · right
          exact ⟨rfl, rfl⟩
        · left
          exact ⟨by simp [Event.isSensorPublish], rfl, rfl⟩

/-- After any run of cycles, either no sensor publish call was made and the two variables
are as at the start, or they hold the values of the last temperature and humidity publish
calls. -/
theorem sampleAll_lastPublished (rs : List Sample) (s : State) :
    ((sampleAll rs s).2.any Event.isSensorPublish = false ∧
      (sampleAll rs s).1.lastTemperature = s.lastTemperature ∧
      (sampleAll rs s).1.lastHumidity = s.lastHumidity) ∨
    (lastPublishedTemperature (sampleAll rs s).2 = some (sampleAll rs s).1.lastTemperature ∧
      lastPublishedHumidity (sampleAll rs s).2 = some (sampleAll rs s).1.lastHumidity) := by
  induction rs generalizing s with
  | nil => exact Or.inl ⟨rfl, rfl, rfl⟩
  | cons r rs ih =>
    rw [sampleAll_cons]
    rcases ih (readAndPublishSensorData r s).1 with ⟨hn, hT, hH⟩ | ⟨hT, hH⟩
    · obtain ⟨hnT, hnH⟩ := lastPublished_none_of_no_publish _ hn
      rcases readAndPublish_lastPublished r s with ⟨hn1, hT1, hH1⟩ | ⟨hT1, hH1⟩
      · left
        exact ⟨by rw [List.any_append, hn1, hn]; rfl, hT.trans hT1, hH.trans hH1⟩
      · right
        simp only
        rw [lastPublishedTemperature_append_none _ _ hnT,
          lastPublishedHumidity_append_none _ _ hnH, hT, hH]
        exact ⟨hT1, hH1⟩
    · right
      exact ⟨lastPublishedTemperature_append_some _ _ _ hT,
        lastPublishedHumidity_append_some _ _ _ hH⟩

/-- C1 (amended): for every state in which a reading has already been published and
whose 32-bit `totalReadings` is not back at 0, and every valid reading `(t, h)`:
`lastTemperature` / `lastHumidity` hold the last published reading, and the cycle makes a
sensor publish call if and only if `|t - lastTemperature| > 0.5` or
`|h - lastHumidity| > 2.0`, the two differences being the float subtractions of the code
(the exact difference rounded to binary32), with strict inequalities: a rounded
difference of exactly 0.5 and exactly 2.0 makes none, and neither do exact differences
of at most 0.5 and at most 2.0. When it publishes, the two variables become `(t, h)`;
otherwise no publish call is made and they are unchanged. For the float readings
20.0/50.0, 20.3/50.0, 20.6/50.0 from boot the first and the third are published, the
second is not, and the variables end as 20.6/50.0. -/
theorem C1_change_filter_against_last_published (rs : List Sample) (a b : Nat) (h t : ℚ)
    (ta ha : Bool)
    (hpub : (sampleAll rs initialState).2.any Event.isSensorPublish = true)
    (hwrap : (reached rs a b).totalReadings ≠ 0) :
    (lastPublishedTemperature (sampleAll rs initialState).2 =
        some (reached rs a b).lastTemperature ∧
      lastPublishedHumidity (sampleAll rs initialState).2 =
        some (reached rs a b).lastHumidity) ∧
    (((readAndPublishSensorData ⟨some h, some t, ta, ha⟩
        (reached rs a b)).2.any Event.isSensorPublish = true) ↔
      (|fsub t (reached rs a b).lastTemperature| > 1 / 2 ∨
        |fsub h (reached rs a b).lastHumidity| > 2)) ∧
    ((|fsub t (reached rs a b).lastTemperature| > 1 / 2 ∨
        |fsub h (reached rs a b).lastHumidity| > 2) →
      (readAndPublishSensorData ⟨some h, some t, ta, ha⟩
        (reached rs a b)).1.lastTemperature = t ∧
      (readAndPublishSensorData ⟨some h, some t, ta, ha⟩
        (reached rs a b)).1.lastHumidity = h) ∧
    (¬ (|fsub t (reached rs a b).lastTemperature| > 1 / 2 ∨
        |fsub h (reached rs a b).lastHumidity| > 2) →
      (readAndPublishSensorData ⟨some h, some t, ta, ha⟩
        (reached rs a b)).2.any Event.isSensorPublish = false ∧
      (readAndPublishSensorData ⟨some h, some t, ta, ha⟩
        (reached rs a b)).1.lastTemperature = (reached rs a b).lastTemperature ∧
      (readAndPublishSensorData ⟨some h, some t, ta, ha⟩
        (reached rs a b)).1.lastHumidity = (reached rs a b).lastHumidity) ∧
    (|fsub t (reached rs a b).lastTemperature| = 1 / 2 →
      |fsub h (reached rs a b).lastHumidity| = 2 →
      (readAndPublishSensorData ⟨some h, some t, ta, ha⟩
        (reached rs a b)).2.any Event.isSensorPublish = false) ∧
    (|t - (reached rs a b).lastTemperature| ≤ 1 / 2 →
      |h - (reached rs a b).lastHumidity| ≤ 2 →
      (readAndPublishSensorData ⟨some h, some t, ta, ha⟩
        (reached rs a b)).2.any Event.isSensorPublish = false) ∧
    (readAndPublishSensorData ⟨some 50, some 20, ta, ha⟩ initialState =
      (⟨0, 0, 20, 50, 1, 0⟩,
        [Event.readHumidity, Event.readTemperature,
          Event.publish (Payload.temperature 20) false ta,
          Event.publish (Payload.humidity 50) false ha] ++ blinkLED 1 50)) ∧
    (readAndPublishSensorData ⟨some 50, some (toFloat 20.3), ta, ha⟩ ⟨0, 0, 20, 50, 1, 0⟩ =
      (⟨0, 0, 20, 50, 2, 0⟩, [Event.readHumidity, Event.readTemperature])) ∧
    (readAndPublishSensorData ⟨some 50, some (toFloat 20.6), ta, ha⟩ ⟨0, 0, 20, 50, 2, 0⟩ =
      (⟨0, 0, toFloat 20.6, 50, 3, 0⟩,
        [Event.readHumidity, Event.readTemperature,
          Event.publish (Payload.temperature (toFloat 20.6)) false ta,
          Event.publish (Payload.humidity 50) false ha] ++ blinkLED 1 50)) := by
  have hlt : (reached rs a b).totalReadings < WORD :=
    sampleAll_total_lt rs initialState (by decide)
  have hne : uinc (reached rs a b).totalReadings ≠ 1 := by
    rw [Ne, uinc_eq_one_iff, Nat.mod_eq_of_lt hlt]
    exact hwrap
  have hskip : ¬ (|fsub t (reached rs a b).lastTemperature| > 1 / 2 ∨
      |fsub h (reached rs a b).lastHumidity| > 2) →
      readAndPublishSensorData ⟨some h, some t, ta, ha⟩ (reached rs a b) =
        ({ reached rs a b with totalReadings := uinc (reached rs a b).totalReadings },
          [Event.readHumidity, Event.readTemperature]) :=
    fun hc => readAndPublish_skipped _ h t ta ha (fun h1 => hc (Or.inl h1))
      (fun h2 => hc (Or.inr h2)) hne
  refine ⟨?_, ?_, ?_, ?_, ?_, ?_, ?_, ?_, ?_⟩
  · rcases sampleAll_lastPublished rs initialState with ⟨hn, -, -⟩ | hlast
    · rw [hpub] at hn
      exact absurd hn (by decide)
    · exact hlast
  · by_cases hc : |fsub t (reached rs a b).lastTemperature| > 1 / 2 ∨
        |fsub h (reached rs a b).lastHumidity| > 2
    · refine iff_of_true ?_ hc
      rw [readAndPublish_changed _ h t ta ha hc]
      simp [publishSensorData, Event.isSensorPublish]
    · refine iff_of_false ?_ hc
      rw [hskip hc]
      simp [Event.isSensorPublish]
  · intro hc
    rw [readAndPublish_changed _ h t ta ha hc]
    exact ⟨rfl, rfl⟩
  · intro hc
    rw [hskip hc]
    exact ⟨by simp [Event.isSensorPublish], rfl, rfl⟩
  · intro h1 h2
    rw [hskip (by rw [h1, h2]; norm_num)]
    simp [Event.isSensorPublish]
  · intro h1 h2
    rw [readAndPublish_stable _ h t ta ha h1 h2 hne]
    simp [Event.isSensorPublish]
  · exact readAndPublish_first initialState 50 20 ta ha rfl
  · rw [toFloat_twenty_three]
    refine (readAndPublish_skipped ⟨0, 0, 20, 50, 1, 0⟩ 50 _ ta ha ?_ ?_ (by decide)).trans rfl
    · show ¬ |fsub (5321523 / 262144) 20| > 1 / 2
      rw [fsub_twenty_three_twenty]
      norm_num [abs_of_pos]
    · show ¬ |fsub 50 50| > 2
      rw [fsub_self]
      norm_num
  · rw [toFloat_twenty_six]
    refine (readAndPublish_changed ⟨0, 0, 20, 50, 2, 0⟩ 50 _ ta ha (Or.inl ?_)).trans rfl
    show |fsub (10800333 / 524288) 20| > 1 / 2
    rw [fsub_twenty_six_twenty]
    norm_num [abs_of_pos]

/-- Witness of C1: the state left by the published reading 20.0/50.0, and the reading
20.3/50.0. -/
theorem C1_change_filter_against_last_published_witness :
    (sampleAll [⟨some 50, some 20, true, true⟩] initialState).2.any Event.isSensorPublish
      = true ∧
    (reached [⟨some 50, some 20, true, true⟩] 10000 0).totalReadings ≠ 0 ∧
    (((readAndPublishSensorData ⟨some 50, some (toFloat 20.3), true, true⟩
        (reached [⟨some 50, some 20, true, true⟩] 10000 0)).2.any Event.isSensorPublish
          = true) ↔
      (|fsub (toFloat 20.3) (reached [⟨some 50, some 20, true, true⟩] 10000 0).lastTemperature|
          > 1 / 2 ∨
        |fsub 50 (reached [⟨some 50, some 20, true, true⟩] 10000 0).lastHumidity| > 2)) := by
  have hrun : sampleAll [⟨some 50, some 20, true, true⟩] initialState =
      (⟨0, 0, 20, 50, 1, 0⟩,
        [Event.readHumidity, Event.readTemperature] ++ publishSensorData 20 50 true true
          ++ blinkLED 1 50 ++ []) := by
    rw [sampleAll_cons, readAndPublish_first initialState 50 20 true true rfl]
    rfl
  have hpub : (sampleAll [⟨some 50, some 20, true, true⟩] initialState).2.any
      Event.isSensorPublish = true := by
    rw [hrun]
    simp [publishSensorData, Event.isSensorPublish]
  have hwrap : (reached [⟨some 50, some 20, true, true⟩] 10000 0).totalReadings ≠ 0 := by
    show (sampleAll [⟨some 50, some 20, true, true⟩] initialState).1.totalReadings ≠ 0
    rw [hrun]
    decide
  exact ⟨hpub, hwrap,
    (C1_change_filter_against_last_published [⟨some 50, some 20, true, true⟩] 10000 0 50
      (toFloat 20.3) true true hpub hwrap).2.1⟩

/-- C1 (counterexample): two states in which a reading has been published and where the
cycle does not publish exactly when an exact difference exceeds its threshold. First,
after the published reading 0.1f/50.0 the reading 0.6f/50.0 is not published: the exact
difference of the two floats is `0.5 + 3 / 2 ^ 27 > 0.5`, but the float subtraction
rounds it to 0.5. Second, after 2^32 cycles that all read 20.0/50.0 the 32-bit
`totalReadings` is back at 0 and the next cycle publishes 20.0/50.0 again although both
differences are 0. -/
theorem C1_counterexample_float_rounding_and_counter_wrap :
    (toFloat 0.1 = 13421773 / 134217728 ∧ toFloat 0.6 = 5033165 / 8388608 ∧
      (sampleAll [⟨some 50, some (13421773 / 134217728), true, true⟩]
        initialState).2.any Event.isSensorPublish = true ∧
      ¬ (((readAndPublishSensorData ⟨some 50, some (5033165 / 8388608), true, true⟩
            (sampleAll [⟨some 50, some (13421773 / 134217728), true, true⟩]
              initialState).1).2.any Event.isSensorPublish = true) ↔
          (|(5033165 / 8388608 : ℚ) -
              (sampleAll [⟨some 50, some (13421773 / 134217728), true, true⟩]
                initialState).1.lastTemperature| > 1 / 2 ∨
           |(50 : ℚ) - (sampleAll [⟨some 50, some (13421773 / 134217728), true, true⟩]
                initialState).1.lastHumidity| > 2))) ∧
    ((sampleAll (List.replicate 4294967296 ⟨some 50, some 20, true, true⟩)
        initialState).2.any Event.isSensorPublish = true ∧
      ¬ (((readAndPublishSensorData ⟨some 50, some 20, true, true⟩
            (sampleAll (List.replicate 4294967296 ⟨some 50, some 20, true, true⟩)
              initialState).1).2.any Event.isSensorPublish = true) ↔
          (|(20 : ℚ) - (sampleAll (List.replicate 4294967296 ⟨some 50, some 20, true, true⟩)
              initialState).1.lastTemperature| > 1 / 2 ∨
           |(50 : ℚ) - (sampleAll (List.replicate 4294967296 ⟨some 50, some 20, true, true⟩)
              initialState).1.lastHumidity| > 2))) := by
  constructor
  · have hrun : sampleAll [⟨some 50, some (13421773 / 134217728), true, true⟩] initialState =
        (⟨0, 0, 13421773 / 134217728, 50, 1, 0⟩,
          [Event.readHumidity, Event.readTemperature]
            ++ publishSensorData (13421773 / 134217728) 50 true true
            ++ blinkLED 1 50 ++ []) := by
      rw [sampleAll_cons, readAndPublish_first initialState 50 _ true true rfl]
      rfl
    refine ⟨toFloat_tenth, toFloat_six_tenths, ?_, ?_⟩
    · rw [hrun]
      simp [publishSensorData, Event.isSensorPublish]
    · rw [hrun]
      dsimp only
      rw [readAndPublish_skipped ⟨0, 0, 13421773 / 134217728, 50, 1, 0⟩ 50
        (5033165 / 8388608) true true
        (by
          show ¬ |fsub (5033165 / 8388608) (13421773 / 134217728)| > 1 / 2
          rw [fsub_six_tenths_tenth]
          norm_num [abs_of_pos])
        (by
          show ¬ |fsub 50 50| > 2
          rw [fsub_self]
          norm_num)
        (by decide)]
      intro hiff
      have hex : |(5033165 / 8388608 : ℚ) - 13421773 / 134217728| > 1 / 2 := by
        norm_num [abs_of_pos]
      have := hiff.mpr (Or.inl hex)
      simp [Event.isSensorPublish] at this
  · have hrep : List.replicate 4294967296 (⟨some 50, some 20, true, true⟩ : Sample) =
        ⟨some 50, some 20, true, true⟩ ::
          List.replicate 4294967295 ⟨some 50, some 20, true, true⟩ :=
      List.replicate_succ _ 4294967295
    have hstep : readAndPublishSensorData ⟨some 50, some 20, true, true⟩ initialState =
        (⟨0, 0, 20, 50, 1, 0⟩,
          [Event.readHumidity, Event.readTemperature] ++ publishSensorData 20 50 true true
            ++ blinkLED 1 50) :=
      readAndPublish_first initialState 50 20 true true rfl
    have hsame := sampleAll_replicate_same 4294967295 ⟨0, 0, 20, 50, 1, 0⟩ true true
    have hmod := sampleAll_total_mod
      (List.replicate 4294967295 (⟨some 50, some 20, true, true⟩ : Sample))
      ⟨0, 0, 20, 50, 1, 0⟩
    have hlt := sampleAll_total_lt
      (List.replicate 4294967295 (⟨some 50, some 20, true, true⟩ : Sample))
      ⟨0, 0, 20, 50, 1, 0⟩ (by decide)
    rw [List.length_replicate] at hmod
    rw [hrep, sampleAll_cons, hstep]
    generalize sampleAll (List.replicate 4294967295 (⟨some 50, some 20, true, true⟩ : Sample))
      ⟨0, 0, 20, 50, 1, 0⟩ = out at hsame hmod hlt ⊢
    obtain ⟨s, evs⟩ := out
    simp only at hsame hmod hlt ⊢
    have h0 : s.totalReadings = 0 := by
      unfold WORD at hmod hlt
      omega
    refine ⟨by simp [publishSensorData, Event.isSensorPublish], ?_⟩
    rw [readAndPublish_first s 50 20 true true (by rw [h0]; rfl), hsame.1, hsame.2]
    norm_num [publishSensorData, Event.isSensorPublish]

/-- C2 (failing input): the first cycle faults and the second reads 0.3 degrees / 1.0 percent.
That first successful reading is not published: the cycle counter is already 2 and the
reading is compared with the initial 0.0/0.0. -/
theorem C2_first_valid_reading_after_fault_not_published :
    sampleAll [⟨none, none, true, true⟩, ⟨some 1, some 0.3, true, true⟩] initialState =
      (⟨0, 0, 0, 0, 2, 1⟩,
        [Event.readHumidity, Event.readTemperature] ++ blinkLED 2 50
          ++ [Event.readHumidity, Event.readTemperature]) ∧
    (sampleAll [⟨none, none, true, true⟩, ⟨some 1, some 0.3, true, true⟩]
      initialState).2.any Event.isSensorPublish = false := by
  have hf : readAndPublishSensorData ⟨none, none, true, true⟩ initialState =
      (⟨0, 0, 0, 0, 1, 1⟩, [Event.readHumidity, Event.readTemperature] ++ blinkLED 2 50) :=
    readAndPublish_fault _ _ rfl
  have hv : readAndPublishSensorData ⟨some 1, some 0.3, true, true⟩ ⟨0, 0, 0, 0, 1, 1⟩ =
      (⟨0, 0, 0, 0, 2, 1⟩, [Event.readHumidity, Event.readTemperature]) :=
    readAndPublish_stable ⟨0, 0, 0, 0, 1, 1⟩ 1 0.3 true true
      (by norm_num [abs_of_pos]) (by norm_num) (by decide)
  have hrun : sampleAll [⟨none, none, true, true⟩, ⟨some 1, some 0.3, true, true⟩]
      initialState =
      (⟨0, 0, 0, 0, 2, 1⟩,
        [Event.readHumidity, Event.readTemperature] ++ blinkLED 2 50
          ++ [Event.readHumidity, Event.readTemperature]) := by
    rw [sampleAll_cons, hf]
    dsimp only
    rw [sampleAll_cons, hv]
    simp [sampleAll]
  refine ⟨hrun, ?_⟩
  rw [hrun]
  simp [blinkLED, Event.isSensorPublish]
/-- C6 (counterexample): last published 20.0/50.0, new reading 25.0/50.0, and the transport
rejects both publish calls. No publish call is accepted, yet `lastTemperature` becomes 25. -/
theorem C6_counterexample_rejected_publish_updates_last :
    (readAndPublishSensorData ⟨some 50, some 25, false, false⟩
      ⟨0, 0, 20, 50, 1, 0⟩).2.any Event.isAcceptedSensorPublish = false ∧
    (readAndPublishSensorData ⟨some 50, some 25, false, false⟩
      ⟨0, 0, 20, 50, 1, 0⟩).1.lastTemperature = 25 ∧
    (readAndPublishSensorData ⟨some 50, some 25, false, false⟩
      ⟨0, 0, 20, 50, 1, 0⟩).1.lastTemperature ≠
      (⟨0, 0, 20, 50, 1, 0⟩ : State).lastTemperature := by
  have hrun : readAndPublishSensorData ⟨some 50, some 25, false, false⟩ ⟨0, 0, 20, 50, 1, 0⟩ =
      (⟨0, 0, 25, 50, 2, 0⟩,
        [Event.readHumidity, Event.readTemperature] ++ publishSensorData 25 50 false false
          ++ blinkLED 1 50) :=
    readAndPublish_changed ⟨0, 0, 20, 50, 1, 0⟩ 50 25 false false
      (Or.inl (by
        show |fsub 25 20| > 1 / 2
        rw [fsub_twenty_five_twenty]
        norm_num))
  rw [hrun]
  refine ⟨?_, rfl, ?_⟩
  · simp [publishSensorData, blinkLED, Event.isAcceptedSensorPublish]
  · norm_num

/-- C6 (amended): `lastTemperature` / `lastHumidity` are written exactly in the cycles that
call `publishSensorData`, to the values passed to it, whatever `mqttClient.publish`
returns: the state a cycle leaves does not depend on the two publish results; a cycle
with a sensor publish call leaves the reading in the two variables, and a cycle without
one leaves them unchanged. -/
theorem C6_last_written_whenever_publish_attempted (r : Sample) (s : State) :
    (∀ ta ha : Bool,
      (readAndPublishSensorData ⟨r.humidity, r.temperature, ta, ha⟩ s).1 =
        (readAndPublishSensorData r s).1) ∧
    ((readAndPublishSensorData r s).2.any Event.isSensorPublish = true →
      r.temperature = some (readAndPublishSensorData r s).1.lastTemperature ∧
      r.humidity = some (readAndPublishSensorData r s).1.lastHumidity) ∧
    ((readAndPublishSensorData r s).2.any Event.isSensorPublish = false →
      (readAndPublishSensorData r s).1.lastTemperature = s.lastTemperature ∧
      (readAndPublishSensorData r s).1.lastHumidity = s.lastHumidity) := by
  obtain ⟨h, t, ta0, ha0⟩ := r
  cases h with
  | none =>
    refine ⟨fun ta ha => rfl, ?_, fun _ => ⟨rfl, rfl⟩⟩
    simp [readAndPublishSensorData, blinkLED, Event.isSensorPublish]
  | some h =>
    cases t with
    | none =>
      refine ⟨fun ta ha => rfl, ?_, fun _ => ⟨rfl, rfl⟩⟩
      simp [readAndPublishSensorData, blinkLED, Event.isSensorPublish]
    | some t =>
      refine ⟨fun ta ha => ?_, ?_, ?_⟩
      · rw [readAndPublish_valid, readAndPublish_valid]
        split_ifs <;> rfl
      · rw [readAndPublish_valid]
        split_ifs
        · intro _
          exact ⟨rfl, rfl⟩
        · simp [Event.isSensorPublish]
      · rw [readAndPublish_valid]
        split_ifs
        · simp [publishSensorData, Event.isSensorPublish]
        · intro _
          exact ⟨rfl, rfl⟩

/-- Witness of C6: the cycle of the counterexample, where both publish calls are rejected. -/
theorem C6_last_written_whenever_publish_attempted_witness :
    (readAndPublishSensorData ⟨some 50, some 25, false, false⟩
        ⟨0, 0, 20, 50, 1, 0⟩).2.any Event.isSensorPublish = true ∧
    some (25 : ℚ) = some (readAndPublishSensorData ⟨some 50, some 25, false, false⟩
        ⟨0, 0, 20, 50, 1, 0⟩).1.lastTemperature :=
  have hp : (readAndPublishSensorData ⟨some 50, some 25, false, false⟩
      ⟨0, 0, 20, 50, 1, 0⟩).2.any Event.isSensorPublish = true := by
    rw [readAndPublish_changed ⟨0, 0, 20, 50, 1, 0⟩ 50 25 false false
      (Or.inl (by
        show |fsub 25 20| > 1 / 2
        rw [fsub_twenty_five_twenty]
        norm_num))]
    simp [publishSensorData, Event.isSensorPublish]
  ⟨hp, ((C6_last_written_whenever_publish_attempted ⟨some 50, some 25, false, false⟩
    ⟨0, 0, 20, 50, 1, 0⟩).2.1 hp).1⟩

/-- C7 (failing input): five cycles, the first and the last fault, the three others read
0.3 degrees / 1.0 percent. The counters end as 5 and 2, but `lastTemperature` /
`lastHumidity` stay 0.0/0.0, whereas the three successful cycles alone leave 0.3/1.0. -/
theorem C7_faults_change_what_is_published :
    (sampleAll [⟨none, none, true, true⟩, ⟨some 1, some 0.3, true, true⟩,
        ⟨some 1, some 0.3, true, true⟩, ⟨some 1, some 0.3, true, true⟩,
        ⟨none, none, true, true⟩] initialState).1 = ⟨0, 0, 0, 0, 5, 2⟩ ∧
    (sampleAll [⟨some 1, some 0.3, true, true⟩, ⟨some 1, some 0.3, true, true⟩,
        ⟨some 1, some 0.3, true, true⟩] initialState).1 = ⟨0, 0, 0.3, 1, 3, 0⟩ := by
  have hf1 : readAndPublishSensorData ⟨none, none, true, true⟩ initialState =
      (⟨0, 0, 0, 0, 1, 1⟩, [Event.readHumidity, Event.readTemperature] ++ blinkLED 2 50) :=
    readAndPublish_fault _ _ rfl
  have hv : ∀ n f : Nat, uinc n ≠ 1 →
      readAndPublishSensorData ⟨some 1, some 0.3, true, true⟩ ⟨0, 0, 0, 0, n, f⟩ =
        (⟨0, 0, 0, 0, uinc n, f⟩, [Event.readHumidity, Event.readTemperature]) :=
    fun n f hn => readAndPublish_stable ⟨0, 0, 0, 0, n, f⟩ 1 0.3 true true
      (by norm_num [abs_of_pos]) (by norm_num) hn
  have hf2 : readAndPublishSensorData ⟨none, none, true, true⟩ ⟨0, 0, 0, 0, 4, 1⟩ =
      (⟨0, 0, 0, 0, 5, 2⟩, [Event.readHumidity, Event.readTemperature] ++ blinkLED 2 50) :=
    readAndPublish_fault _ _ rfl
  have hp : readAndPublishSensorData ⟨some 1, some 0.3, true, true⟩ initialState =
      (⟨0, 0, 0.3, 1, 1, 0⟩,
        [Event.readHumidity, Event.readTemperature] ++ publishSensorData 0.3 1 true true
          ++ blinkLED 1 50) :=
    readAndPublish_first initialState 1 0.3 true true rfl
  have hs : ∀ n : Nat, uinc n ≠ 1 →
      readAndPublishSensorData ⟨some 1, some 0.3, true, true⟩ ⟨0, 0, 0.3, 1, n, 0⟩ =
        (⟨0, 0, 0.3, 1, uinc n, 0⟩, [Event.readHumidity, Event.readTemperature]) :=
    fun n hn => readAndPublish_stable ⟨0, 0, 0.3, 1, n, 0⟩ 1 0.3 true true
      (by norm_num) (by norm_num) hn
  constructor
  · rw [sampleAll_cons, hf1]
    dsimp only
    rw [sampleAll_cons, hv 1 1 (by decide)]
    dsimp only
    rw [sampleAll_cons, hv (uinc 1) 1 (by decide)]
    dsimp only
    rw [sampleAll_cons, hv (uinc (uinc 1)) 1 (by decide)]
    dsimp only
    rw [sampleAll_cons]
    exact congrArg Prod.fst hf2
  · rw [sampleAll_cons, hp]
    dsimp only
    rw [sampleAll_cons, hs 1 (by decide)]
    dsimp only
    rw [sampleAll_cons, hs (uinc 1) (by decide)]
    rfl

/-! ## Connection maintenance and main loop: basic facts -/

theorem filter_nil_of_quiet (p : Event → Bool) (evs : List Event)
    (hp : ∀ e, p e = true → e.isTelemetry = true)
    (hq : ∀ e ∈ evs, e.isTelemetry = false) : evs.filter p = [] := by
  rw [List.filter_eq_nil_iff]
  intro e he hpe
  have h1 := hp e hpe
  rw [hq e he] at h1
  exact Bool.false_ne_true h1

theorem isSensorRead_telemetry (e : Event) (h : e.isSensorRead = true) :
    e.isTelemetry = true := by
  simp [Event.isTelemetry, h]

theorem isSensorPublish_telemetry (e : Event) (h : e.isSensorPublish = true) :
    e.isTelemetry = true := by
  simp [Event.isTelemetry, h]

theorem isHeartbeatPublish_telemetry (e : Event) (h : e.isHeartbeatPublish = true) :
    e.isTelemetry = true := by
  simp [Event.isTelemetry, h]

theorem blinkLED_quiet (n d : Nat) : ∀ e ∈ blinkLED n d, e.isTelemetry = false := by
  induction n with
  | zero => simp [blinkLED]
  | succ n ih =>
    intro e he
    simp only [blinkLED, List.mem_append, List.mem_cons, List.mem_singleton,
      List.not_mem_nil, or_false] at he
    rcases he with (rfl | rfl | rfl | rfl) | he
    · rfl
    · rfl
    · rfl
    · rfl
    · exact ih e he

theorem connectFailure_quiet : ∀ e ∈ connectFailure, e.isTelemetry = false := by
  intro e he
  simp only [connectFailure, List.mem_append, List.mem_singleton] at he
  rcases he with (rfl | he) | rfl
  · rfl
  · exact blinkLED_quiet _ _ e he
  · rfl

theorem connectSuccess_quiet (a : Attempt) (s : State) :
    ∀ e ∈ connectSuccess a s, e.isTelemetry = false := by
  intro e he
  simp only [connectSuccess, publishStatus, List.mem_append, List.mem_singleton] at he
  rcases he with ((rfl | rfl) | rfl) | he
  · rfl
  · rfl
  · rfl
  · exact blinkLED_quiet _ _ e he

theorem connectToMQTT_succ (broker : Nat → Attempt) (s : State) (fuel attempt : Nat) :
    connectToMQTT broker s (fuel + 1) attempt false =
      if (broker attempt).ok then
        (connectToMQTT broker s fuel (attempt + 1) (broker attempt).stays).map
          fun r => (r.1, connectSuccess (broker attempt) s ++ r.2)
      else
        (connectToMQTT broker s fuel (attempt + 1) false).map
          fun r => (r.1, connectFailure ++ r.2) := by
  rfl

theorem connectToMQTT_connected (broker : Nat → Attempt) (s : State) (fuel attempt : Nat) :
    connectToMQTT broker s fuel attempt true = some (s, []) := by
  cases fuel <;> rfl

/-- Whenever `connectToMQTT` returns, the globals are as before and nothing was sampled
or published on the sensor and heartbeat topics. -/
theorem connectToMQTT_returns (broker : Nat → Attempt) (s : State) (fuel attempt : Nat)
    (c : Bool) (out : State × List Event)
    (h : connectToMQTT broker s fuel attempt c = some out) :
    out.1 = s ∧ ∀ e ∈ out.2, e.isTelemetry = false := by
  induction fuel generalizing attempt c out with
  | zero =>
    cases c with
    | true =>
      rw [connectToMQTT_connected] at h
      cases h
      simp
    | false => exact absurd h (by simp [connectToMQTT])
  | succ fuel ih =>
    cases c with
    | true =>
      rw [connectToMQTT_connected] at h
      cases h
      simp
    | false =>
      rw [connectToMQTT_succ] at h
      split_ifs at h with hok
      · rw [Option.map_eq_some'] at h
        obtain ⟨r, hr, rfl⟩ := h
        obtain ⟨h1, h2⟩ := ih _ _ _ hr
        refine ⟨h1, ?_⟩
        intro e he
        rcases List.mem_append.mp he with he | he
        · exact connectSuccess_quiet _ _ e he
        · exact h2 e he
      · rw [Option.map_eq_some'] at h
        obtain ⟨r, hr, rfl⟩ := h
        obtain ⟨h1, h2⟩ := ih _ _ _ hr
        refine ⟨h1, ?_⟩
        intro e he
        rcases List.mem_append.mp he with he | he
        · exact connectFailure_quiet e he
        · exact h2 e he

theorem pumpInbound_quiet (ms : List Inbound) (s : State) :
    ∀ e ∈ (pumpInbound ms s).1, e.isTelemetry = false := by
  induction ms with
  | nil => simp [pumpInbound]
  | cons m ms ih =>
    intro e he
    cases m with
    | restart =>
      simp only [pumpInbound, mqttCallback, if_true, List.mem_cons, List.mem_singleton,
        List.not_mem_nil, or_false] at he
      rcases he with rfl | rfl <;> rfl
    | status accepted =>
      simp only [pumpInbound, mqttCallback, publishStatus, Bool.false_eq_true, if_false,
        List.mem_append, List.mem_singleton] at he
      rcases he with rfl | he
      · rfl
      · exact ih e he
    | other =>
      simp only [pumpInbound, mqttCallback, Bool.false_eq_true, if_false,
        List.nil_append] at he
      exact ih e he

theorem pumpInbound_no_restart (ms : List Inbound) (s : State)
    (h : Inbound.restart ∉ ms) : (pumpInbound ms s).2 = false := by
  induction ms with
  | nil => rfl
  | cons m ms ih =>
    simp only [List.mem_cons, not_or] at h
    cases m with
    | restart => exact absurd rfl h.1
    | status accepted =>
      simpa [pumpInbound, mqttCallback] using ih h.2
    | other =>
      simpa [pumpInbound, mqttCallback] using ih h.2

theorem setupWiFi_wait_quiet (wifi : Nat → Bool) (remaining q : Nat) :
    ∀ e ∈ (setupWiFi_wait wifi remaining q).1, e.isTelemetry = false := by
  induction remaining generalizing q with
  | zero => simp [setupWiFi_wait]
  | succ n ih =>
    intro e he
    simp only [setupWiFi_wait] at he
    split_ifs at he
    · simp at he
    · simp only [List.mem_append, List.mem_singleton] at he
      rcases he with (rfl | he) | he
      · rfl
      · exact blinkLED_quiet _ _ e he
      · exact ih _ e he

theorem setupWiFi_quiet (wifi : Nat → Bool) :
    ∀ e ∈ (setupWiFi wifi).1, e.isTelemetry = false := by
  intro e he
  simp only [setupWiFi] at he
  split_ifs at he
  · simp only [List.mem_append, List.mem_cons, List.mem_singleton, List.not_mem_nil,
      or_false] at he
    rcases he with ((rfl | rfl) | he) | (rfl | rfl | rfl)
    · rfl
    · rfl
    · exact setupWiFi_wait_quiet _ _ _ e he
    · rfl
    · rfl
    · rfl
  · simp only [List.mem_append, List.mem_cons, List.mem_singleton, List.not_mem_nil,
      or_false] at he
    rcases he with ((rfl | rfl) | he) | he
    · rfl
    · rfl
    · exact setupWiFi_wait_quiet _ _ _ e he
    · exact blinkLED_quiet _ _ e he

theorem blinkLED_filter (p : Event → Bool) (hp : ∀ e, p e = true → e.isTelemetry = true)
    (n d : Nat) : (blinkLED n d).filter p = [] :=
  filter_nil_of_quiet p _ hp (blinkLED_quiet n d)

theorem readAndPublish_timers (r : Sample) (s : State) :
    (readAndPublishSensorData r s).1.lastSensorReading = s.lastSensorReading ∧
    (readAndPublishSensorData r s).1.lastHeartbeat = s.lastHeartbeat := by
  obtain ⟨h, t, ta, ha⟩ := r
  cases h <;> cases t <;> simp [readAndPublishSensorData]
  split_ifs <;> exact ⟨rfl, rfl⟩

theorem readAndPublish_reads (r : Sample) (s : State) :
    (readAndPublishSensorData r s).2.filter Event.isSensorRead =
      [Event.readHumidity, Event.readTemperature] := by
  have hb := blinkLED_filter Event.isSensorRead isSensorRead_telemetry
  obtain ⟨h, t, ta, ha⟩ := r
  cases h <;> cases t <;>
    simp [readAndPublishSensorData, List.filter_cons, Event.isSensorRead, hb]
  split_ifs <;>
    simp [publishSensorData, List.filter_cons, Event.isSensorRead, hb]

theorem readAndPublish_no_heartbeat (r : Sample) (s : State) :
    (readAndPublishSensorData r s).2.filter Event.isHeartbeatPublish = [] := by
  have hb := blinkLED_filter Event.isHeartbeatPublish isHeartbeatPublish_telemetry
  cases hf : r.isFault with
  | true =>
    rw [readAndPublish_fault r s hf, List.filter_append, hb]
    rfl
  | false =>
    obtain ⟨h, t, ta, ha⟩ := r
    cases h with
    | none => simp [Sample.isFault] at hf
    | some h =>
      cases t with
      | none => simp [Sample.isFault] at hf
      | some t =>
        rw [readAndPublish_valid]
        split_ifs
        · rw [List.filter_append, List.filter_append, hb]
          rfl
        · rfl

/-- The sample timer of `loop()`: which sensor reads an iteration makes, and what it leaves
in `lastSensorReading`. -/
theorem loop_timers_sample (env : LoopEnv) (s : State) :
    (loop_timers env s).2.filter Event.isSensorRead =
      (if usub (millis env.uptime) s.lastSensorReading ≥ SENSOR_INTERVAL then
        [Event.readHumidity, Event.readTemperature] else []) ∧
    (loop_timers env s).1.lastSensorReading =
      (if usub (millis env.uptime) s.lastSensorReading ≥ SENSOR_INTERVAL then
        millis env.uptime else s.lastSensorReading) := by
  unfold loop_timers
  by_cases hs : usub (millis env.uptime) s.lastSensorReading ≥ SENSOR_INTERVAL
  · simp only [hs, if_true]
    constructor
    · split_ifs <;>
        simp [List.filter_append, readAndPublish_reads, publishHeartbeat, List.filter_cons,
          Event.isSensorRead]
    · split_ifs <;> simp [readAndPublish_timers]
  · simp only [hs, if_false]
    constructor
    · split_ifs <;>
        simp [List.filter_append, publishHeartbeat, List.filter_cons, Event.isSensorRead]
    · split_ifs <;> rfl

/-- The heartbeat timer of `loop()`: which heartbeat publish calls an iteration makes, and
what it leaves in `lastHeartbeat`. -/
theorem loop_timers_heartbeat (env : LoopEnv) (s : State) :
    (loop_timers env s).2.filter Event.isHeartbeatPublish =
      (if usub (millis env.uptime) s.lastHeartbeat ≥ HEARTBEAT_INTERVAL then
        [Event.publish Payload.heartbeat false env.heartbeatAccepted] else []) ∧
    (loop_timers env s).1.lastHeartbeat =
      (if usub (millis env.uptime) s.lastHeartbeat ≥ HEARTBEAT_INTERVAL then
        millis env.uptime else s.lastHeartbeat) := by
  unfold loop_timers
  by_cases hs : usub (millis env.uptime) s.lastSensorReading ≥ SENSOR_INTERVAL
  · simp only [hs, if_true, readAndPublish_timers]
    by_cases hh : usub (millis env.uptime) s.lastHeartbeat ≥ HEARTBEAT_INTERVAL
    · simp [hh, List.filter_append, readAndPublish_no_heartbeat, publishHeartbeat,
        List.filter_cons, Event.isHeartbeatPublish]
    · simp [hh, List.filter_append, readAndPublish_no_heartbeat, List.filter_cons,
        Event.isHeartbeatPublish, readAndPublish_timers]
  · simp only [hs, if_false]
    by_cases hh : usub (millis env.uptime) s.lastHeartbeat ≥ HEARTBEAT_INTERVAL
    · simp [hh, List.filter_append, publishHeartbeat, List.filter_cons,
        Event.isHeartbeatPublish]
    · simp [hh, List.filter_append, List.filter_cons, Event.isHeartbeatPublish]

theorem loop_timers_total (env : LoopEnv) (s : State) :
    (loop_timers env s).1.totalReadings =
      (if usub (millis env.uptime) s.lastSensorReading ≥ SENSOR_INTERVAL then
        uinc s.totalReadings else s.totalReadings) := by
  unfold loop_timers
  by_cases hs : usub (millis env.uptime) s.lastSensorReading ≥ SENSOR_INTERVAL
  · simp only [hs, if_true]
    split_ifs <;> simp [readAndPublish_total]
  · simp only [hs, if_false]
    split_ifs <;> rfl

/-- The counters after the timers are those of the sampling call, or untouched. -/
theorem loop_timers_counters (env : LoopEnv) (s : State) :
    ((loop_timers env s).1.totalReadings = s.totalReadings ∧
      (loop_timers env s).1.failedReadings = s.failedReadings) ∨
    ((loop_timers env s).1.totalReadings =
        (readAndPublishSensorData env.sample s).1.totalReadings ∧
      (loop_timers env s).1.failedReadings =
        (readAndPublishSensorData env.sample s).1.failedReadings) := by
  unfold loop_timers
  by_cases hs : usub (millis env.uptime) s.lastSensorReading ≥ SENSOR_INTERVAL
  · right
    simp only [hs, if_true]
    split_ifs <;> simp [readAndPublish_total, readAndPublish_failed]
  · left
    simp only [hs, if_false]
    split_ifs <;> exact ⟨rfl, rfl⟩

/-- An iteration of `loop()` that runs to its end is the maintenance step, which neither
samples nor publishes on the sensor and heartbeat topics, followed by the timers. -/
theorem loop_completed (fuel : Nat) (env : LoopEnv) (s s1 : State) (evs : List Event)
    (h : loop fuel env s = some (Outcome.completed s1 evs)) :
    s1 = (loop_timers env s).1 ∧
    ∃ pre, evs = pre ++ (loop_timers env s).2 ∧ ∀ e ∈ pre, e.isTelemetry = false := by
  unfold loop at h
  have key : ∀ out : State × List Event,
      (if env.sessionUp then some (s, []) else connectToMQTT env.broker s fuel 0 false)
        = some out → out.1 = s ∧ ∀ e ∈ out.2, e.isTelemetry = false := by
    intro out hout
    split_ifs at hout
    · cases hout
      simp
    · exact connectToMQTT_returns _ _ _ _ _ _ hout
  cases hc : (if env.sessionUp then some (s, [])
      else connectToMQTT env.broker s fuel 0 false) with
  | none => simp [hc] at h
  | some out =>
    obtain ⟨s0, evs0⟩ := out
    obtain ⟨h1, h2⟩ := key _ hc
    simp only at h1 h2
    subst h1
    simp only [hc] at h
    split_ifs at h with hp hw
    · simp at h
    · simp only [Option.some.injEq, Outcome.completed.injEq] at h
      obtain ⟨rfl, rfl⟩ := h
      refine ⟨rfl, evs0 ++ [Event.pump] ++ (pumpInbound env.inbound s0).1 ++ [], rfl, ?_⟩
      intro e he
      simp only [List.append_nil, List.mem_append, List.mem_singleton] at he
      rcases he with (he | rfl) | he
      · exact h2 e he
      · rfl
      · exact pumpInbound_quiet _ _ e he
    · simp only [Option.some.injEq, Outcome.completed.injEq] at h
      obtain ⟨rfl, rfl⟩ := h
      refine ⟨rfl, evs0 ++ [Event.pump] ++ (pumpInbound env.inbound s0).1
        ++ (setupWiFi env.wifi).1, rfl, ?_⟩
      intro e he
      simp only [List.mem_append, List.mem_singleton] at he
      rcases he with ((he | rfl) | he) | he
      · exact h2 e he
      · rfl
      · exact pumpInbound_quiet _ _ e he
      · exact setupWiFi_quiet _ e he

/-- With the session up at the start of the iteration and no `restart` command, the
iteration runs to its end whatever the fuel. -/
theorem loop_sessionUp (fuel : Nat) (env : LoopEnv) (s : State)
    (hs : env.sessionUp = true) (hr : Inbound.restart ∉ env.inbound) :
    ∃ evs, loop fuel env s = some (Outcome.completed (loop_timers env s).1 evs) := by
  unfold loop
  simp only [hs, if_true, pumpInbound_no_restart _ _ hr, Bool.false_eq_true, if_false]
  exact ⟨_, rfl⟩

/-- An iteration cut short by a `restart` command neither samples nor publishes on the
sensor and heartbeat topics. -/
theorem loop_restarted (fuel : Nat) (env : LoopEnv) (s : State) (evs : List Event)
    (h : loop fuel env s = some (Outcome.restarted evs)) :
    ∀ e ∈ evs, e.isTelemetry = false := by
  unfold loop at h
  have key : ∀ out : State × List Event,
      (if env.sessionUp then some (s, []) else connectToMQTT env.broker s fuel 0 false)
        = some out → out.1 = s ∧ ∀ e ∈ out.2, e.isTelemetry = false := by
    intro out hout
    split_ifs at hout
    · cases hout
      simp
    · exact connectToMQTT_returns _ _ _ _ _ _ hout
  cases hc : (if env.sessionUp then some (s, [])
      else connectToMQTT env.broker s fuel 0 false) with
  | none => simp [hc] at h
  | some out =>
    obtain ⟨s0, evs0⟩ := out
    obtain ⟨h1, h2⟩ := key _ hc
    simp only at h1 h2
    subst h1
    simp only [hc] at h
    split_ifs at h with hp hw
    · simp only [Option.some.injEq, Outcome.restarted.injEq] at h
      subst h
      intro e he
      simp only [List.mem_append, List.mem_singleton] at he
      rcases he with (he | rfl) | he
      · exact h2 e he
      · rfl
      · exact pumpInbound_quiet _ _ e he
    · simp at h
    · simp at h

theorem loop_completed_sample (fuel : Nat) (env : LoopEnv) (s s1 : State) (evs : List Event)
    (h : loop fuel env s = some (Outcome.completed s1 evs)) :
    evs.filter Event.isSensorRead =
      (if usub (millis env.uptime) s.lastSensorReading ≥ SENSOR_INTERVAL then
        [Event.readHumidity, Event.readTemperature] else []) ∧
    s1.lastSensorReading =
      (if usub (millis env.uptime) s.lastSensorReading ≥ SENSOR_INTERVAL then
        millis env.uptime else s.lastSensorReading) := by
  obtain ⟨rfl, pre, rfl, hq⟩ := loop_completed fuel env s s1 evs h
  rw [List.filter_append, filter_nil_of_quiet _ pre isSensorRead_telemetry hq, List.nil_append]
  exact loop_timers_sample env s

theorem loop_completed_heartbeat (fuel : Nat) (env : LoopEnv) (s s1 : State)
    (evs : List Event) (h : loop fuel env s = some (Outcome.completed s1 evs)) :
    evs.filter Event.isHeartbeatPublish =
      (if usub (millis env.uptime) s.lastHeartbeat ≥ HEARTBEAT_INTERVAL then
        [Event.publish Payload.heartbeat false env.heartbeatAccepted] else []) ∧
    s1.lastHeartbeat =
      (if usub (millis env.uptime) s.lastHeartbeat ≥ HEARTBEAT_INTERVAL then
        millis env.uptime else s.lastHeartbeat) := by
  obtain ⟨rfl, pre, rfl, hq⟩ := loop_completed fuel env s s1 evs h
  rw [List.filter_append, filter_nil_of_quiet _ pre isHeartbeatPublish_telemetry hq,
    List.nil_append]
  exact loop_timers_heartbeat env s

/-- Iterations that all come less than `SENSOR_INTERVAL` after `lastSensorReading` read
the sensor in none of them. -/
theorem loopAll_no_sample (fuel : Nat) (envs : List LoopEnv) (s : State) (out : Outcome)
    (hearly : ∀ e ∈ envs, usub (millis e.uptime) s.lastSensorReading < SENSOR_INTERVAL)
    (h : loopAll fuel envs s = some out) :
    out.events.filter Event.isSensorRead = [] := by
  induction envs generalizing s out with
  | nil =>
    simp only [loopAll, Option.some.injEq] at h
    subst h
    rfl
  | cons env envs ih =>
    simp only [List.mem_cons, forall_eq_or_imp] at hearly
    obtain ⟨h0, hrest⟩ := hearly
    simp only [loopAll] at h
    cases hl : loop fuel env s with
    | none => simp [hl] at h
    | some o =>
      cases o with
      | restarted evs =>
        simp only [hl, Option.some.injEq] at h
        subst h
        exact filter_nil_of_quiet _ evs isSensorRead_telemetry (loop_restarted _ _ _ _ hl)
      | completed s1 evs =>
        obtain ⟨hf, hs1⟩ := loop_completed_sample _ _ _ _ _ hl
        rw [if_neg (not_le.mpr h0)] at hf hs1
        simp only [hl] at h
        cases hr : loopAll fuel envs s1 with
        | none => simp [hr] at h
        | some o2 =>
          have h2 := ih s1 o2 (by rw [hs1]; exact hrest) hr
          cases o2 with
          | restarted evs2 =>
            simp only [hr, Option.some.injEq] at h
            subst h
            simp only [Outcome.events] at h2 ⊢
            rw [List.filter_append, hf, h2]
            rfl
          | completed s2 evs2 =>
            simp only [hr, Option.some.injEq] at h
            subst h
            simp only [Outcome.events] at h2 ⊢
            rw [List.filter_append, hf, h2]
            rfl

/-- Iterations that all come less than `HEARTBEAT_INTERVAL` after `lastHeartbeat` publish
no heartbeat in any of them. -/
theorem loopAll_no_heartbeat (fuel : Nat) (envs : List LoopEnv) (s : State) (out : Outcome)
    (hearly : ∀ e ∈ envs, usub (millis e.uptime) s.lastHeartbeat < HEARTBEAT_INTERVAL)
    (h : loopAll fuel envs s = some out) :
    out.events.filter Event.isHeartbeatPublish = [] := by
  induction envs generalizing s out with
  | nil =>
    simp only [loopAll, Option.some.injEq] at h
    subst h
    rfl
  | cons env envs ih =>
    simp only [List.mem_cons, forall_eq_or_imp] at hearly
    obtain ⟨h0, hrest⟩ := hearly
    simp only [loopAll] at h
    cases hl : loop fuel env s with
    | none => simp [hl] at h
    | some o =>
      cases o with
      | restarted evs =>
        simp only [hl, Option.some.injEq] at h
        subst h
        exact filter_nil_of_quiet _ evs isHeartbeatPublish_telemetry
          (loop_restarted _ _ _ _ hl)
      | completed s1 evs =>
        obtain ⟨hf, hs1⟩ := loop_completed_heartbeat _ _ _ _ _ hl
        rw [if_neg (not_le.mpr h0)] at hf hs1
        simp only [hl] at h
        cases hr : loopAll fuel envs s1 with
        | none => simp [hr] at h
        | some o2 =>
          have h2 := ih s1 o2 (by rw [hs1]; exact hrest) hr
          cases o2 with
          | restarted evs2 =>
            simp only [hr, Option.some.injEq] at h
            subst h
            simp only [Outcome.events] at h2 ⊢
            rw [List.filter_append, hf, h2]
            rfl
          | completed s2 evs2 =>
            simp only [hr, Option.some.injEq] at h
            subst h
            simp only [Outcome.events] at h2 ⊢
            rw [List.filter_append, hf, h2]
            rfl

/-! ## The retry loop of `connectToMQTT` -/

/-- While the attempts fail, the loop is still running: `fuel` failed attempts use up
`fuel` iterations. -/
theorem connectToMQTT_fail_none (broker : Nat → Attempt) (s : State) (n i fuel : Nat)
    (hfail : ∀ j, j < n → (broker (i + j)).ok = false) (hf : fuel ≤ n) :
    connectToMQTT broker s fuel i false = none := by
  induction fuel generalizing n i with
  | zero => rfl
  | succ fuel ih =>
    obtain ⟨m, rfl⟩ : ∃ m, n = m + 1 := ⟨n - 1, by omega⟩
    have h0 : (broker i).ok = false := by simpa using hfail 0 (by omega)
    rw [connectToMQTT_succ, h0]
    simp only [Bool.false_eq_true, if_false]
    rw [ih m (i + 1) (fun j hj => by
      have := hfail (j + 1) (by omega)
      rwa [show i + (j + 1) = i + 1 + j by omega] at this) (by omega)]
    rfl

/-- The first `n` attempts fail: the loop leaves `n` failure blocks and goes on with
attempt `i + n`. -/
theorem connectToMQTT_fail_peel (broker : Nat → Attempt) (s : State) (n i fuel : Nat)
    (hfail : ∀ j, j < n → (broker (i + j)).ok = false) :
    connectToMQTT broker s (n + fuel) i false =
      (connectToMQTT broker s fuel (i + n) false).map
        fun r => (r.1, connectFailures n ++ r.2) := by
  induction n generalizing i with
  | zero =>
    simp only [Nat.zero_add, Nat.add_zero, connectFailures, List.nil_append]
    cases connectToMQTT broker s fuel i false <;> rfl
  | succ n ih =>
    have h0 : (broker i).ok = false := by simpa using hfail 0 (by omega)
    rw [show n + 1 + fuel = (n + fuel) + 1 by omega, connectToMQTT_succ, h0]
    simp only [Bool.false_eq_true, if_false]
    rw [ih (i + 1) (fun j hj => by
      have := hfail (j + 1) (by omega)
      rwa [show i + (j + 1) = i + 1 + j by omega] at this)]
    rw [show i + 1 + n = i + (n + 1) by omega]
    cases connectToMQTT broker s fuel (i + (n + 1)) false with
    | none => rfl
    | some r => simp [connectFailures, List.append_assoc]

theorem connectToMQTT_success (broker : Nat → Attempt) (s : State) (i fuel : Nat)
    (hok : (broker i).ok = true) (hstay : (broker i).stays = true) :
    connectToMQTT broker s (fuel + 1) i false = some (s, connectSuccess (broker i) s) := by
  rw [connectToMQTT_succ, if_pos hok, hstay, connectToMQTT_connected]
  simp

theorem connectToMQTT_isSome_of_success (broker : Nat → Attempt) (s : State) (d i : Nat)
    (hok : (broker (i + d)).ok = true) (hstay : (broker (i + d)).stays = true) :
    (connectToMQTT broker s (d + 1) i false).isSome = true := by
  induction d generalizing i with
  | zero =>
    rw [connectToMQTT_success broker s i 0 (by simpa using hok) (by simpa using hstay)]
    rfl
  | succ d ih =>
    have hnext := ih (i + 1) (by rwa [show i + 1 + d = i + (d + 1) by omega])
      (by rwa [show i + 1 + d = i + (d + 1) by omega])
    rw [connectToMQTT_succ]
    split_ifs with h1
    · cases h2 : (broker i).stays with
      | true =>
        rw [connectToMQTT_connected]
        rfl
      | false =>
        rw [Option.isSome_map']
        exact hnext
    · rw [Option.isSome_map']
      exact hnext

theorem connectToMQTT_success_of_isSome (broker : Nat → Attempt) (s : State) (fuel i : Nat)
    (h : (connectToMQTT broker s fuel i false).isSome = true) :
    ∃ k, (broker k).ok = true ∧ (broker k).stays = true := by
  induction fuel generalizing i with
  | zero => simp [connectToMQTT] at h
  | succ fuel ih =>
    rw [connectToMQTT_succ] at h
    split_ifs at h with h1
    · cases h2 : (broker i).stays with
      | true => exact ⟨i, h1, h2⟩
      | false =>
        rw [Option.isSome_map', h2] at h
        exact ih _ h
    · rw [Option.isSome_map'] at h
      exact ih _ h

/-! ## Claims about the main loop, the timers and the connection -/

/-- C3 (counterexample): in the iteration `linkDownEnv` the WiFi link is still down after
`setupWiFi` has given up, so the device is not Connected after the maintenance step; the
iteration nevertheless reads the sensor, counts the reading and calls the heartbeat
publish. -/
theorem C3_counterexample_sampling_while_link_down :
    linkDownEnv.linkAfterMaintenance = false ∧ linkDownEnv.connected = false ∧
    ∃ s1 evs, loop 0 linkDownEnv initialState = some (Outcome.completed s1 evs) ∧
      evs.filter Event.isSensorRead = [Event.readHumidity, Event.readTemperature] ∧
      evs.filter Event.isHeartbeatPublish = [Event.publish Payload.heartbeat false false] ∧
      s1.totalReadings = 1 := by
  have hlink : linkDownEnv.linkAfterMaintenance = false := by
    simp [LoopEnv.linkAfterMaintenance, linkDownEnv, setupWiFi]
  refine ⟨hlink, by simp [LoopEnv.connected, hlink], ?_⟩
  obtain ⟨evs, h⟩ := loop_sessionUp 0 linkDownEnv initialState rfl (by simp [linkDownEnv])
  refine ⟨_, evs, h, ?_, ?_, ?_⟩
  · rw [(loop_completed_sample _ _ _ _ _ h).1, if_pos (by decide)]
  · rw [(loop_completed_heartbeat _ _ _ _ _ h).1, if_pos (by decide)]
    rfl
  · rw [loop_timers_total, if_pos (by decide)]
    rfl

/-- C3 (amended): in every iteration of `loop()` that runs to its end, whether or not the
device is Connected after the maintenance step, the sensor is sampled exactly when
`SENSOR_INTERVAL` has elapsed and the heartbeat is published exactly when
`HEARTBEAT_INTERVAL` has elapsed; the connection status plays no part. -/
theorem C3_timers_fire_whatever_the_connection (fuel : Nat) (env : LoopEnv) (s s1 : State)
    (evs : List Event) (h : loop fuel env s = some (Outcome.completed s1 evs)) :
    evs.filter Event.isSensorRead =
      (if usub (millis env.uptime) s.lastSensorReading ≥ SENSOR_INTERVAL then
        [Event.readHumidity, Event.readTemperature] else []) ∧
    evs.filter Event.isHeartbeatPublish =
      (if usub (millis env.uptime) s.lastHeartbeat ≥ HEARTBEAT_INTERVAL then
        [Event.publish Payload.heartbeat false env.heartbeatAccepted] else []) :=
  ⟨(loop_completed_sample fuel env s s1 evs h).1,
    (loop_completed_heartbeat fuel env s s1 evs h).1⟩

/-- Witness of C3: the iteration `linkDownEnv`, not Connected, from the initial state. -/
theorem C3_timers_fire_whatever_the_connection_witness :
    linkDownEnv.connected = false ∧
    ∃ s1 evs, loop 0 linkDownEnv initialState = some (Outcome.completed s1 evs) ∧
      evs.filter Event.isSensorRead =
        (if usub (millis linkDownEnv.uptime) initialState.lastSensorReading
            ≥ SENSOR_INTERVAL then
          [Event.readHumidity, Event.readTemperature] else []) := by
  obtain ⟨evs, h⟩ := loop_sessionUp 0 linkDownEnv initialState rfl (by simp [linkDownEnv])
  exact ⟨by simp [LoopEnv.connected, linkDownEnv], _, evs, h,
    (C3_timers_fire_whatever_the_connection 0 linkDownEnv initialState _ evs h).1⟩

/-- A fault followed by 2^32 - 1 valid readings wraps `totalReadings` to 0 and leaves
`failedReadings` at 1. -/
theorem sampleAll_fault_then_valid (rs : List Sample) (hlen : rs.length = 4294967295)
    (hv : ∀ r ∈ rs, r.isFault = false) :
    (sampleAll (⟨none, none, false, false⟩ :: rs) initialState).1.totalReadings = 0 ∧
    (sampleAll (⟨none, none, false, false⟩ :: rs) initialState).1.failedReadings = 1 := by
  have htot := sampleAll_total_mod (⟨none, none, false, false⟩ :: rs) initialState
  have hlt := sampleAll_total_lt (⟨none, none, false, false⟩ :: rs) initialState (by decide)
  have hi : initialState.totalReadings = 0 := rfl
  rw [List.length_cons, hlen, hi] at htot
  constructor
  · unfold WORD at htot hlt
    omega
  · rw [sampleAll_cons, sampleAll_failed_of_valid _ _ hv]
    rfl

/-- C4 (counterexample): one fault followed by 2^32 - 1 valid readings. The 32-bit
`totalReadings` has wrapped to 0 while `failedReadings` is 1. -/
theorem C4_counterexample_total_wraps :
    (sampleAll (⟨none, none, false, false⟩ ::
      List.replicate 4294967295 ⟨some 50, some 20, true, true⟩)
        initialState).1.totalReadings = 0 ∧
    (sampleAll (⟨none, none, false, false⟩ ::
      List.replicate 4294967295 ⟨some 50, some 20, true, true⟩)
        initialState).1.failedReadings = 1 ∧
    ¬ ((sampleAll (⟨none, none, false, false⟩ ::
      List.replicate 4294967295 ⟨some 50, some 20, true, true⟩)
        initialState).1.failedReadings ≤
       (sampleAll (⟨none, none, false, false⟩ ::
      List.replicate 4294967295 ⟨some 50, some 20, true, true⟩)
        initialState).1.totalReadings) :=
  have h := sampleAll_fault_then_valid
    (List.replicate 4294967295 ⟨some 50, some 20, true, true⟩)
    (List.length_replicate _ _)
    (fun r hr => by rw [List.eq_of_mem_replicate hr]; rfl)
  ⟨h.1, h.2, fun hle => absurd (h.1 ▸ h.2 ▸ hle) (by decide)⟩

/-- C4 (amended): in the initial state and after any sequence of fewer than 2^32 calls of
`readAndPublishSensorData`, whatever the sensor and the transport answer,
`totalReadings` is the number of calls, `failedReadings` the number of faults among them,
and `failedReadings <= totalReadings`. An iteration of `loop()` changes the two counters
only through its call of `readAndPublishSensorData`. -/
theorem C4_failed_le_total_before_wrap (rs : List Sample) (hlen : rs.length < WORD) :
    (sampleAll rs initialState).1.totalReadings = rs.length ∧
    (sampleAll rs initialState).1.failedReadings = (rs.filter Sample.isFault).length ∧
    (sampleAll rs initialState).1.failedReadings ≤
      (sampleAll rs initialState).1.totalReadings ∧
    (∀ (fuel : Nat) (env : LoopEnv) (s s1 : State) (evs : List Event),
      loop fuel env s = some (Outcome.completed s1 evs) →
        (s1.totalReadings = s.totalReadings ∧ s1.failedReadings = s.failedReadings) ∨
        (s1.totalReadings = (readAndPublishSensorData env.sample s).1.totalReadings ∧
          s1.failedReadings = (readAndPublishSensorData env.sample s).1.failedReadings)) := by
  have hi : initialState.totalReadings = 0 ∧ initialState.failedReadings = 0 := ⟨rfl, rfl⟩
  have hfl : (rs.filter Sample.isFault).length ≤ rs.length := List.length_filter_le _ _
  have htot := sampleAll_total_mod rs initialState
  have htlt := sampleAll_total_lt rs initialState (by decide)
  have hfail := sampleAll_failed_mod rs initialState
  have hflt := sampleAll_failed_lt rs initialState (by decide)
  rw [hi.1, Nat.zero_add, Nat.mod_eq_of_lt htlt, Nat.mod_eq_of_lt hlen] at htot
  rw [hi.2, Nat.zero_add, Nat.mod_eq_of_lt hflt,
    Nat.mod_eq_of_lt (lt_of_le_of_lt hfl hlen)] at hfail
  refine ⟨htot, hfail, by rw [htot, hfail]; exact hfl, ?_⟩
  intro fuel env s s1 evs h
  obtain ⟨rfl, _⟩ := loop_completed fuel env s s1 evs h
  exact loop_timers_counters env s

/-- Witness of C4: a fault followed by a valid reading. -/
theorem C4_failed_le_total_before_wrap_witness :
    (sampleAll [⟨none, none, true, true⟩, ⟨some 50, some 20, true, true⟩]
      initialState).1.failedReadings ≤
    (sampleAll [⟨none, none, true, true⟩, ⟨some 50, some 20, true, true⟩]
      initialState).1.totalReadings :=
  (C4_failed_le_total_before_wrap
    [⟨none, none, true, true⟩, ⟨some 50, some 20, true, true⟩] (by decide)).2.2.1

/-- C5 (counterexample): a broker that refuses every connect attempt. After 1000 iterations
of its `while` loop `connectToMQTT` has not returned, and no number of iterations makes
it return. -/
theorem C5_counterexample_never_returns :
    connectToMQTT (fun _ => ⟨false, false, false⟩) initialState 1000 0 false = none ∧
    ¬ ∃ fuel : Nat,
      (connectToMQTT (fun _ => ⟨false, false, false⟩) initialState fuel 0 false).isSome
        = true :=
  have h : ∀ fuel : Nat,
      connectToMQTT (fun _ => ⟨false, false, false⟩) initialState fuel 0 false = none :=
    fun fuel =>
      connectToMQTT_fail_none (fun _ => ⟨false, false, false⟩) initialState fuel 0 fuel
        (fun _ _ => rfl) (Nat.le_refl fuel)
  ⟨h 1000, fun ⟨fuel, hf⟩ => by simp [h fuel] at hf⟩

/-- C5 (amended): `connectToMQTT` returns exactly when some connect attempt succeeds with
the session still up at the next test of the loop condition; it then returns with the
globals unchanged. After a failed attempt it does not return: it blinks, waits
`delay(5000)` and makes the next attempt inside the same call. -/
theorem C5_returns_only_after_a_successful_attempt (broker : Nat → Attempt) (s : State) :
    ((∃ fuel, (connectToMQTT broker s fuel 0 false).isSome = true) ↔
      ∃ k, (broker k).ok = true ∧ (broker k).stays = true) ∧
    (∀ fuel out, connectToMQTT broker s fuel 0 false = some out → out.1 = s) ∧
    (∀ fuel i, (broker i).ok = false →
      connectToMQTT broker s (fuel + 1) i false =
        (connectToMQTT broker s fuel (i + 1) false).map
          fun r => (r.1, [Event.connectAttempt false] ++ blinkLED 5 100
            ++ [Event.delay 5000] ++ r.2)) := by
  refine ⟨⟨?_, ?_⟩, ?_, ?_⟩
  · rintro ⟨fuel, h⟩
    exact connectToMQTT_success_of_isSome broker s fuel 0 h
  · rintro ⟨k, hok, hstay⟩
    exact ⟨k + 1, connectToMQTT_isSome_of_success broker s k 0 (by simpa using hok)
      (by simpa using hstay)⟩
  · intro fuel out h
    exact (connectToMQTT_returns broker s fuel 0 false out h).1
  · intro fuel i hi
    rw [connectToMQTT_succ, hi]
    rfl

/-- Witness of C5: a broker that refuses the attempts 0 and 1 and accepts from attempt 2
on. -/
theorem C5_returns_only_after_a_successful_attempt_witness :
    (∃ fuel, (connectToMQTT (fun i => ⟨decide (2 ≤ i), true, true⟩) initialState fuel 0
      false).isSome = true) ∧
    connectToMQTT (fun i => ⟨decide (2 ≤ i), true, true⟩) initialState (0 + 1) 0 false =
      (connectToMQTT (fun i => ⟨decide (2 ≤ i), true, true⟩) initialState 0 (0 + 1)
        false).map
        fun r => (r.1, [Event.connectAttempt false] ++ blinkLED 5 100
          ++ [Event.delay 5000] ++ r.2) :=
  ⟨(C5_returns_only_after_a_successful_attempt (fun i => ⟨decide (2 ≤ i), true, true⟩)
      initialState).1.mpr ⟨2, by decide, rfl⟩,
    (C5_returns_only_after_a_successful_attempt (fun i => ⟨decide (2 ≤ i), true, true⟩)
      initialState).2.2 0 0 (by decide)⟩

/-- C8: in an iteration of `loop()` with the session up and no `restart` command the timers
are reached; in every iteration that reaches them at `now = millis()`, the sample timer
(10000 ms) and the heartbeat timer (60000 ms) each fire if and only if
`now - lastFired >= T` in 32-bit arithmetic, fire once however overdue, and firing sets
`lastFired` to `now`; in all later iterations at times `now2` with
`now2 - lastFired < T` the timer does not fire. -/
theorem C8_timer_fires_once_and_restarts_from_now (fuel : Nat) (env : LoopEnv) (s : State) :
    SENSOR_INTERVAL = 10000 ∧ HEARTBEAT_INTERVAL = 60000 ∧
    (env.sessionUp = true → Inbound.restart ∉ env.inbound →
      ∃ evs, loop fuel env s = some (Outcome.completed (loop_timers env s).1 evs)) ∧
    (∀ s1 evs, loop fuel env s = some (Outcome.completed s1 evs) →
      evs.filter Event.isSensorRead =
        (if usub (millis env.uptime) s.lastSensorReading ≥ SENSOR_INTERVAL then
          [Event.readHumidity, Event.readTemperature] else []) ∧
      s1.lastSensorReading =
        (if usub (millis env.uptime) s.lastSensorReading ≥ SENSOR_INTERVAL then
          millis env.uptime else s.lastSensorReading) ∧
      evs.filter Event.isHeartbeatPublish =
        (if usub (millis env.uptime) s.lastHeartbeat ≥ HEARTBEAT_INTERVAL then
          [Event.publish Payload.heartbeat false env.heartbeatAccepted] else []) ∧
      s1.lastHeartbeat =
        (if usub (millis env.uptime) s.lastHeartbeat ≥ HEARTBEAT_INTERVAL then
          millis env.uptime else s.lastHeartbeat) ∧
      (∀ (fuel2 : Nat) (later : List LoopEnv) (out : Outcome),
        (∀ e ∈ later, usub (millis e.uptime) s1.lastSensorReading < SENSOR_INTERVAL) →
        loopAll fuel2 later s1 = some out →
        out.events.filter Event.isSensorRead = []) ∧
      (∀ (fuel2 : Nat) (later : List LoopEnv) (out : Outcome),
        (∀ e ∈ later, usub (millis e.uptime) s1.lastHeartbeat < HEARTBEAT_INTERVAL) →
        loopAll fuel2 later s1 = some out →
        out.events.filter Event.isHeartbeatPublish = [])) := by
  refine ⟨rfl, rfl, fun hs hr => loop_sessionUp fuel env s hs hr, ?_⟩
  intro s1 evs h
  refine ⟨(loop_completed_sample fuel env s s1 evs h).1,
    (loop_completed_sample fuel env s s1 evs h).2,
    (loop_completed_heartbeat fuel env s s1 evs h).1,
    (loop_completed_heartbeat fuel env s s1 evs h).2, ?_, ?_⟩
  · intro fuel2 later out hearly hout
    exact loopAll_no_sample fuel2 later s1 out hearly hout
  · intro fuel2 later out hearly hout
    exact loopAll_no_heartbeat fuel2 later s1 out hearly hout

/-- Witness of C8: from the initial state the Connected iteration `overdueEnv` comes 35 s
after boot, three and a half sample periods late. The sensor is read once,
`lastSensorReading` becomes 35000, and a second such iteration 9 s later reads nothing. -/
theorem C8_timer_fires_once_and_restarts_from_now_witness :
    overdueEnv.sessionUp = true ∧ Inbound.restart ∉ overdueEnv.inbound ∧
    ∃ s1 evs, loop 0 overdueEnv initialState = some (Outcome.completed s1 evs) ∧
      evs.filter Event.isSensorRead = [Event.readHumidity, Event.readTemperature] ∧
      s1.lastSensorReading = 35000 ∧
      ∀ out, loopAll 0 [{ overdueEnv with uptime := 44000 }] s1 = some out →
        out.events.filter Event.isSensorRead = [] := by
  have hr : Inbound.restart ∉ overdueEnv.inbound := by simp [overdueEnv]
  obtain ⟨evs, h⟩ :=
    (C8_timer_fires_once_and_restarts_from_now 0 overdueEnv initialState).2.2.1 rfl hr
  obtain ⟨h1, h2, -, -, h5, -⟩ :=
    (C8_timer_fires_once_and_restarts_from_now 0 overdueEnv initialState).2.2.2 _ evs h
  have hdue : usub (millis overdueEnv.uptime) initialState.lastSensorReading
      ≥ SENSOR_INTERVAL := by decide
  rw [if_pos hdue] at h1 h2
  have h2b : (loop_timers overdueEnv initialState).1.lastSensorReading = 35000 := by
    rw [h2]
    rfl
  refine ⟨rfl, hr, _, evs, h, h1, h2b, ?_⟩
  intro out hout
  refine h5 0 _ out ?_ hout
  intro e he
  rw [List.mem_singleton] at he
  subst he
  rw [h2b]
  decide

/-- C9: when the first `n >= 1` connect attempts fail and attempt `n` succeeds,
`connectToMQTT` is still in its loop after `n` iterations and returns in iteration
`n + 1`; its events are `n` blocks "failed attempt, error blink, `delay(5000)`" followed by
the block of the successful attempt, so every failed attempt is followed by a 5000 ms
delay before the next attempt; none of these events is a sensor read or a sensor or
heartbeat publish call; the globals, among them `totalReadings` and `failedReadings`,
are unchanged (`failedReadings` is 0 from the initial state). In `loop()` the pump and
the timers come only after these events. -/
theorem C9_failed_attempts_wait_and_do_not_sample (n : Nat) (broker : Nat → Attempt)
    (s : State) (hn : 1 ≤ n) (hfail : ∀ i, i < n → (broker i).ok = false)
    (hok : (broker n).ok = true) (hstay : (broker n).stays = true) :
    (∀ fuel, fuel ≤ n → connectToMQTT broker s fuel 0 false = none) ∧
    (∀ fuel, n < fuel → connectToMQTT broker s fuel 0 false =
      some (s, connectFailures n ++ connectSuccess (broker n) s)) ∧
    connectFailures n =
      [Event.connectAttempt false] ++ blinkLED 5 100 ++ [Event.delay 5000]
        ++ connectFailures (n - 1) ∧
    (∀ e ∈ connectFailures n ++ connectSuccess (broker n) s,
      e.isSensorRead = false ∧ e.isSensorPublish = false ∧ e.isHeartbeatPublish = false) ∧
    (∀ fuel out, connectToMQTT broker initialState fuel 0 false = some out →
      out.1.totalReadings = 0 ∧ out.1.failedReadings = 0) ∧
    (∀ fuel env, env.sessionUp = false → env.broker = broker →
      (fuel ≤ n → loop fuel env s = none) ∧
      (∀ out, loop fuel env s = some out →
        ∃ rest, out.events =
          connectFailures n ++ connectSuccess (broker n) s ++ [Event.pump] ++ rest)) := by
  have hfail0 : ∀ j, j < n → (broker (0 + j)).ok = false := by
    intro j hj
    rw [Nat.zero_add]
    exact hfail j hj
  have hnone : ∀ fuel, fuel ≤ n → connectToMQTT broker s fuel 0 false = none :=
    fun fuel hf => connectToMQTT_fail_none broker s n 0 fuel hfail0 hf
  have hsome : ∀ fuel, n < fuel → connectToMQTT broker s fuel 0 false =
      some (s, connectFailures n ++ connectSuccess (broker n) s) := by
    intro fuel hf
    obtain ⟨k, rfl⟩ : ∃ k, fuel = n + (k + 1) := ⟨fuel - n - 1, by omega⟩
    rw [connectToMQTT_fail_peel broker s n 0 (k + 1) hfail0, Nat.zero_add,
      connectToMQTT_success broker s n k hok hstay]
    rfl
  have hquiet : ∀ e ∈ connectFailures n ++ connectSuccess (broker n) s,
      e.isTelemetry = false := by
    have h := connectToMQTT_returns broker s (n + 1) 0 false _ (hsome (n + 1) (by omega))
    exact h.2
  refine ⟨hnone, hsome, ?_, ?_, ?_, ?_⟩
  · obtain ⟨m, rfl⟩ : ∃ m, n = m + 1 := ⟨n - 1, by omega⟩
    rfl
  · intro e he
    have h := hquiet e he
    simp only [Event.isTelemetry, Bool.or_eq_false_iff] at h
    exact ⟨h.1.1, h.1.2, h.2⟩
  · intro fuel out h
    rw [(connectToMQTT_returns broker initialState fuel 0 false out h).1]
    exact ⟨rfl, rfl⟩
  · intro fuel env hs hb
    subst hb
    constructor
    · intro hf
      simp [loop, hs, hnone fuel hf]
    · intro out hout
      by_cases hf : fuel ≤ n
      · simp [loop, hs, hnone fuel hf] at hout
      · simp only [loop, hs, Bool.false_eq_true, if_false, hsome fuel (by omega)] at hout
        split_ifs at hout
        · simp only [Option.some.injEq] at hout
          subst hout
          exact ⟨_, rfl⟩
        · simp only [Option.some.injEq] at hout
          subst hout
          exact ⟨(pumpInbound env.inbound s).1 ++ (loop_timers env s).2,
            by simp [Outcome.events, List.append_assoc]⟩
        · simp only [Option.some.injEq] at hout
          subst hout
          exact ⟨(pumpInbound env.inbound s).1 ++ (setupWiFi env.wifi).1
            ++ (loop_timers env s).2, by simp [Outcome.events, List.append_assoc]⟩

/-- Witness of C9: three refused attempts, then an accepted one. -/
theorem C9_failed_attempts_wait_and_do_not_sample_witness :
    connectToMQTT (fun i => ⟨decide (3 ≤ i), true, true⟩) initialState 3 0 false = none ∧
    connectToMQTT (fun i => ⟨decide (3 ≤ i), true, true⟩) initialState 4 0 false =
      some (initialState, connectFailures 3 ++
        connectSuccess ((fun i => ⟨decide (3 ≤ i), true, true⟩ : Nat → Attempt) 3)
          initialState) :=
  have h := C9_failed_attempts_wait_and_do_not_sample 3
    (fun i => ⟨decide (3 ≤ i), true, true⟩) initialState (by decide)
    (fun i hi => by simp; omega) (by decide) rfl
  ⟨h.1 3 (Nat.le_refl 3), h.2.1 4 (by decide)⟩

/-- C10: for true times `t1 <= t2` less than 2^32 ms apart, with `lastFired = t1 mod 2^32`
and `currentMillis = t2 mod 2^32`, the 32-bit difference `currentMillis - lastFired` is
`t2 - t1`; so the test of `loop()` holds if and only if `t2 - t1 >= T`, for
`T = SENSOR_INTERVAL = 10000` and `T = HEARTBEAT_INTERVAL = 60000`, and the timers of
`loop()` fire accordingly, across a wrap of `millis()` as well. -/
theorem C10_timer_test_correct_across_rollover (t1 t2 : Nat) (h12 : t1 ≤ t2)
    (hlt : t2 - t1 < 2 ^ 32) :
    usub (millis t2) (millis t1) = t2 - t1 ∧
    (usub (millis t2) (millis t1) ≥ SENSOR_INTERVAL ↔ t2 - t1 ≥ 10000) ∧
    (usub (millis t2) (millis t1) ≥ HEARTBEAT_INTERVAL ↔ t2 - t1 ≥ 60000) ∧
    (∀ (env : LoopEnv) (s : State), env.uptime = t2 → s.lastSensorReading = millis t1 →
      (loop_timers env s).2.filter Event.isSensorRead =
        (if t2 - t1 ≥ 10000 then [Event.readHumidity, Event.readTemperature] else [])) ∧
    (∀ (env : LoopEnv) (s : State), env.uptime = t2 → s.lastHeartbeat = millis t1 →
      (loop_timers env s).2.filter Event.isHeartbeatPublish =
        (if t2 - t1 ≥ 60000 then
          [Event.publish Payload.heartbeat false env.heartbeatAccepted] else [])) := by
  have key : usub (millis t2) (millis t1) = t2 - t1 := by
    simp only [usub, millis, WORD] at *
    norm_num at hlt
    omega
  refine ⟨key, ?_, ?_, ?_, ?_⟩
  · rw [key]
    rfl
  · rw [key]
    rfl
  · intro env s he hs
    rw [(loop_timers_sample env s).1, he, hs, key]
    rfl
  · intro env s he hs
    rw [(loop_timers_heartbeat env s).1, he, hs, key]
    rfl

/-- Witness of C10: the sample timer last fired 296 ms before `millis()` wrapped and the
iteration comes 10000 ms after the wrap. -/
theorem C10_timer_test_correct_across_rollover_witness :
    usub (millis 4294977296) (millis 4294967000) = 4294977296 - 4294967000 ∧
    (usub (millis 4294977296) (millis 4294967000) ≥ SENSOR_INTERVAL ↔
      4294977296 - 4294967000 ≥ 10000) :=
  have h := C10_timer_test_correct_across_rollover 4294967000 4294977296 (by decide)
    (by norm_num)
  ⟨h.1, h.2.1⟩

end Esp32Monitor
